import Mathlib

/-
  Verification development for the pastelup repository.

  The Go code under cmd/start.go, cmd/start_coldhot.go and the service
  manager / install files is shallowly embedded below.  Stateful code is
  modelled in a monad `M` that threads a state `St` (the package-level
  flag variables and per-oracle call counters), accumulates a trace of
  observable events (`Event`: local daemon start/stop, remote SSH
  commands, local RPC-client invocations, user prompts, file copies,
  sleeps), and short-circuits on the first error, exactly as the Go code
  returns `error` values.  External collaborators (the SSH transport,
  the pastel-cli subprocess, the user prompt, JSON parsing, file
  writes) are oracles supplied by an environment `Env`: each call site
  consumes the next value of the corresponding response stream.
-/

namespace Pastelup

/-- Error value carried by fallible operations (Go `error`). -/
structure Err where
  msg : String
deriving DecidableEq, Repr

/-- Result of a fallible Go call (`(value, error)` pair with exactly one side set). -/
inductive Res (α : Type) where
  | ok : α → Res α
  | err : Err → Res α
deriving DecidableEq, Repr

/-- Active network, parsed from pastel.conf (`constants.NetworkMainnet` etc.). -/
inductive Network where
  | mainnet
  | testnet
  | regtest
deriving DecidableEq, Repr

/-- Observable events of an orchestrator execution, in program order. -/
inductive Event where
  /-- `runPastelNode` launched the local pasteld (argument: the masternode private key; empty means plain mode). -/
  | localNodeStart : String → Event
  /-- `StopPastelDAndWait` was invoked to stop the local pasteld. -/
  | localNodeStop : Event
  /-- `CheckMasterNodeSync` (local sync-status polling) was invoked. -/
  | syncCheck : Event
  /-- `AskUserToContinue` showed a prompt to the user. -/
  | prompt : String → Event
  /-- `RunPastelCLI` invoked the local pastel-cli with these arguments. -/
  | cli : List String → Event
  /-- a command string was issued over the SSH session (`Cmd().Output()`, `Cmd().Run()` or `ShellCmd`). -/
  | ssh : String → Event
  /-- `sshClient.Scp src dst` copied a local file to the remote host. -/
  | scpFile : String → String → Event
  /-- `time.Sleep` of this many seconds. -/
  | sleep : Nat → Event
  /-- `createOrUpdateMasternodeConf` wrote the masternode registry file. -/
  | writeMasternodeConf : Event
  /-- `createOrUpdateSuperNodeConfig` wrote/patched supernode.yml. -/
  | writeSuperNodeConf : Event
  /-- `backupConfFile` backed up masternode.conf. -/
  | backupConf : Event
deriving DecidableEq, Repr

/-- The package-level flag variables of the cmd package that the embedded functions
read and mutate (`flagMasterNodeTxID`, `flagMasterNodeInd`, `flagMasterNodePassPhrase`,
`flagMasterNodePrivateKey`, `flagMasterNodePastelID`, `flagNodeExtIP`,
`flagMasterNodeP2PIP`, `flagMasterNodeName`, `flagMasterNodeIsCreate`,
`flagMasterNodeIsUpdate`, `flagMasterNodeIsActivate`, `flagMasterNodeConfNew`,
`flagMasterNodeConfAdd`). -/
structure Flags where
  name : String
  txid : String
  ind : String
  passPhrase : String
  privKey : String
  pastelID : String
  extIPFlag : String
  p2pIP : String
  isCreate : Bool
  isUpdate : Bool
  isActivate : Bool
  confNew : Bool
  confAdd : Bool
deriving DecidableEq, Repr

/-- Mutable execution state: the flag variables, plus one call counter per oracle
stream (each external call site consumes the next element of its stream). -/
structure St where
  flags : Flags
  sshCnt : Nat
  cliCnt : Nat
  askCnt : Nat
  startCnt : Nat
  stopCnt : Nat
  syncCnt : Nat
deriving DecidableEq, Repr

/-- The parts of `configs.Config` read by the embedded functions.
`snConfFile` models `config.Configurer.GetSuperNodeConfFile` (modelled from the
spec: the supernode YAML configuration file under the given working directory;
the Configurer implementation is not under src/). -/
structure Config where
  workingDir : String
  remoteWorkingDir : String
  remoteHotPastelExecDir : String
  network : Network
  reindex : Bool
  snConfFile : String → String

/-- `ColdHotRunnerOpts`: the resolved remote paths and the testnet option. -/
structure Opts where
  remotePasteld : String
  remotePastelCli : String
  remotePastelUtility : String
  testnetOption : String
deriving DecidableEq, Repr

/-- `structure.RPCPastelMSStatus` (the fields used by checkMasterNodeSyncRemote). -/
structure MSStatus where
  AssetName : String
  IsSynced : Bool
deriving DecidableEq, Repr

/-- Environment of oracle response streams for external collaborators.
Streams indexed by `Nat` are consumed in call order by the matching counter of `St`.
The `parse...` fields model `encoding/json.Unmarshal` on a captured output string. -/
structure Env where
  ssh : Nat → Res String
  scpRes : Option Err
  cli : Nat → Res String
  ask : Nat → Bool × String
  startRes : Nat → Option Err
  stopRes : Nat → Option Err
  syncRes : Nat → Option Err
  extIPRes : Res String
  parseConfRes : Res Network
  mnConfDataRes : Res (String × String × String)
  mnConfWrite : Option Err
  snConfWrite : Option Err
  backupRes : Option Err
  parseMS : String → Res MSStatus
  parseOutputs : String → Res (List (String × String))
  parsePastelID : String → Res String
  parseAlias : String → Res (String × String)

/-- The embedding monad: state, event trace, and error short-circuiting. -/
def M (α : Type) : Type := St → St × List Event × Res α

/-- Monadic return: no state change, no events. -/
def M.pure {α : Type} (a : α) : M α := fun s => (s, [], Res.ok a)

/-- Monadic bind: run `x`; on success feed its value to `f`, concatenating traces;
on error stop with `x`'s trace and error (Go early `return err`). -/
def M.bind {α β : Type} (x : M α) (f : α → M β) : M β := fun s =>
  match x s with
  | (s', evs, Res.ok a) =>
    match f a s' with
    | (s'', evs2, r) => (s'', evs ++ evs2, r)
  | (s', evs, Res.err e) => (s', evs, Res.err e)

instance : Monad M where
  pure := M.pure
  bind := M.bind

/-- Read the current flag variables. -/
def getFlags : M Flags := fun s => (s, [], Res.ok s.flags)

/-- Mutate the flag variables. -/
def modifyFlags (f : Flags → Flags) : M Unit := fun s =>
  ({ s with flags := f s.flags }, [], Res.ok ())

/-- Fail with a Go error value. -/
def throwErr {α : Type} (e : Err) : M α := fun s => (s, [], Res.err e)

/-- Lift an oracle result, failing on its error (no event emitted). -/
def oracleRes {α : Type} (r : Res α) : M α := fun s => (s, [], r)

/-- Issue a command over the SSH session and hand back the captured result
without failing the computation (callers inspect the error themselves). -/
def sshTry (env : Env) (cmd : String) : M (Res String) := fun s =>
  ({ s with sshCnt := s.sshCnt + 1 }, [Event.ssh cmd], Res.ok (env.ssh s.sshCnt))

/-- Issue a command over the SSH session, failing the computation on error
(Go `if _, err := client.Cmd(c).Output(); err != nil return err`). -/
def sshOut (env : Env) (cmd : String) : M String := fun s =>
  ({ s with sshCnt := s.sshCnt + 1 }, [Event.ssh cmd], env.ssh s.sshCnt)

/-- Issue a command over the SSH session inside a goroutine whose error is only
logged: fire and forget (used for the detached remote pasteld launches). -/
def sshFire (env : Env) (cmd : String) : M Unit := fun s =>
  ({ s with sshCnt := s.sshCnt + 1 }, [Event.ssh cmd],
    match env.ssh s.sshCnt with
    | _ => Res.ok ())

/-- `sshClient.Scp localPath remotePath`. -/
def scpOp (env : Env) (src dst : String) : M Unit := fun s =>
  (s, [Event.scpFile src dst],
    match env.scpRes with
    | none => Res.ok ()
    | some e => Res.err e)

/-- `RunPastelCLI` invocation, failing the computation on error. -/
def cliOut (env : Env) (args : List String) : M String := fun s =>
  ({ s with cliCnt := s.cliCnt + 1 }, [Event.cli args], env.cli s.cliCnt)

/-- `AskUserToContinue`: show a prompt, obtain (yes/no, typed answer). -/
def askUser (env : Env) (msg : String) : M (Bool × String) := fun s =>
  ({ s with askCnt := s.askCnt + 1 }, [Event.prompt msg], Res.ok (env.ask s.askCnt))

/-- `runPastelNode` call site (argument: the masternode private key passed, empty
for plain mode).  The body of runPastelNode (executable checks, argument list,
readiness poll) is an external boundary here; the claims below only concern
whether and when the local daemon launch is reached, which this event records. -/
def runPastelNodeOp (env : Env) (mnPrivKey : String) : M Unit := fun s =>
  ({ s with startCnt := s.startCnt + 1 }, [Event.localNodeStart mnPrivKey],
    match env.startRes s.startCnt with
    | none => Res.ok ()
    | some e => Res.err e)

/-- Modelled from the spec: `StopPastelDAndWait` (§4.4 stopNodeAndWait; its body is
not under src/) — stops the local daemon and waits for confirmed shutdown. -/
def stopPastelDAndWaitOp (env : Env) : M Unit := fun s =>
  ({ s with stopCnt := s.stopCnt + 1 }, [Event.localNodeStop],
    match env.stopRes s.stopCnt with
    | none => Res.ok ()
    | some e => Res.err e)

/-- Modelled from the spec: `CheckMasterNodeSync` (§4.4 checkMasterNodeSync; its
body is not under src/) — blocking local sync-status polling. -/
def checkMasterNodeSyncOp (env : Env) : M Unit := fun s =>
  ({ s with syncCnt := s.syncCnt + 1 }, [Event.syncCheck],
    match env.syncRes s.syncCnt with
    | none => Res.ok ()
    | some e => Res.err e)

/-- `time.Sleep` of `n` seconds. -/
def sleepOp (n : Nat) : M Unit := fun s => (s, [Event.sleep n], Res.ok ())

/-- Modelled from the spec: `createOrUpdateMasternodeConf` (masternode registry
write; its body is not under src/). -/
def writeMasternodeConfOp (env : Env) : M Unit := fun s =>
  (s, [Event.writeMasternodeConf],
    match env.mnConfWrite with
    | none => Res.ok ()
    | some e => Res.err e)

/-- Modelled from the spec: `createOrUpdateSuperNodeConfig` for the cold/hot Run
(supernode.yml write; embedded in detail only where a claim needs it). -/
def writeSuperNodeConfOp (env : Env) : M Unit := fun s =>
  (s, [Event.writeSuperNodeConf],
    match env.snConfWrite with
    | none => Res.ok ()
    | some e => Res.err e)

/-- Modelled from the spec: `backupConfFile` (masternode.conf backup; its body is
not under src/). -/
def backupConfOp (env : Env) : M Unit := fun s =>
  (s, [Event.backupConf],
    match env.backupRes with
    | none => Res.ok ()
    | some e => Res.err e)

/-- Run a unit computation and discard its error (Go pattern
`if err := f(); err != nil { log only }`). -/
def tryIgnoreErr (x : M Unit) : M Unit := fun s =>
  match x s with
  | (s', evs, _) => (s', evs, Res.ok ())

/-- Go `strings.TrimSuffix s "\n"`. -/
def trimNewlineSuffix (s : String) : String :=
  if s.endsWith "\n" then s.dropRight 1 else s

/-- Go `strings.Trim s "\n"` (strip newlines from both ends). -/
def trimNewlines (s : String) : String :=
  let l := s.data.dropWhile (fun c => c = '\n')
  String.mk (((l.reverse).dropWhile (fun c => c = '\n')).reverse)

/-- Go `strings.ReplaceAll s "\\" "/"` as used on remote paths. -/
def replaceBackslashes (s : String) : String :=
  String.mk (s.data.map (fun c => if c = '\\' then '/' else c))

/-! ## cmd/start.go embeddings -/

/-- Embeds `checkPassphrase` (cmd/start.go): prompt for a passphrase when the
flag is empty; answering "n" (case-insensitively) or nothing is fatal. -/
def checkPassphrase (env : Env) : M Unit := do
  let f ← getFlags
  if f.passPhrase = "" then do
    let a ← askUser env "No --passphrase provided. Please type new passphrase and press Enter. Or N to exit"
    modifyFlags (fun fl => { fl with passPhrase := a.2 })
    let f2 ← getFlags
    if f2.passPhrase.toLower = "n" ∨ f2.passPhrase = "" then do
      modifyFlags (fun fl => { fl with passPhrase := "" })
      throwErr (Err.mk "required parameter if --create or --update specified: --passphrase")
    else pure ()
  else pure ()

/-- Embeds `checkMasternodePrivKey` (cmd/start.go): when the private-key flag is
empty, generate one via `masternode genkey` — locally through pastel-cli when
`remote = false`, over the SSH session against the hot node otherwise. -/
def checkMasternodePrivKey (env : Env) (cfg : Config) (remote : Bool) : M Unit := do
  let f ← getFlags
  if f.privKey = "" then do
    let out ← (if remote then
      sshOut env ((cfg.remoteHotPastelExecDir ++ "/pastel-cli") ++ " masternode genkey")
      else cliOut env ["masternode", "genkey"])
    modifyFlags (fun fl => { fl with privKey := trimNewlineSuffix out })
  else pure ()

/-- Embeds `checkPastelID` (cmd/start.go): when the pastelid flag is empty,
generate one via `pastelid newkey <passphrase>` (locally or over SSH) and parse
the JSON result. -/
def checkPastelID (env : Env) (cfg : Config) (remote : Bool) : M Unit := do
  let f ← getFlags
  if f.pastelID = "" then do
    if f.passPhrase = "" then
      throwErr (Err.mk "required parameter if --create or --update specified: --passphrase to pastelid private key")
    else do
      let out ← (if remote then
        sshOut env ((cfg.remoteHotPastelExecDir ++ "/pastel-cli") ++ " pastelid newkey " ++ f.passPhrase)
        else cliOut env ["pastelid", "newkey", f.passPhrase])
      match env.parsePastelID out with
      | Res.err e => throwErr e
      | Res.ok pid => modifyFlags (fun fl => { fl with pastelID := pid })
  else pure ()

/-- Embeds `getMasternodeOutputs` (cmd/start.go): run `masternode outputs` and
parse the JSON map (txid → output index); an empty output yields the nil map. -/
def getMasternodeOutputs (env : Env) : M (List (String × String)) := do
  let outputs ← cliOut env ["masternode", "outputs"]
  if outputs = "" then pure []
  else
    match env.parseOutputs outputs with
    | Res.err e => throwErr e
    | Res.ok m => pure m

/-- Embeds the confirmation-polling loop of `checkCollateral`
(cmd/start.go lines 1064-1090): `for i := 1; i <= 10; i++` querying
`masternode outputs`, breaking when the txid is found, sleeping 10s after each
miss, and at `i == 10` re-prompting the user and setting `i = 1` (so that the
loop post-increment makes the next round start at `i = 2`).  `fuel` bounds the
number of iterations of this otherwise unbounded loop. -/
def collateralLoop (env : Env) : Nat → Nat → M Unit
  | 0, _ => throwErr (Err.mk "model: collateral loop out of fuel")
  | Nat.succ fuel, i => do
    if i ≤ 10 then do
      let m ← getMasternodeOutputs env
      let f ← getFlags
      match List.lookup f.txid m with
      | some txind => modifyFlags (fun fl => { fl with ind := txind })
      | none => do
        sleepOp 10
        if i = 10 then do
          let a ← askUser env "Still no collateral transaction. Continue? - Y/N"
          if a.1 then collateralLoop env fuel 2
          else throwErr (Err.mk "user terminated")
        else collateralLoop env fuel (i + 1)
    else pure ()

/-- Embeds `checkCollateral` (cmd/start.go): optional search of existing
collateral-ready outputs, optional generation of a fresh funding address, then
the confirmation-polling loop, then the final non-empty check. -/
def checkCollateral (env : Env) (cfg : Config) (fuel : Nat) : M Unit := do
  let f ← getFlags
  (if f.txid = "" ∨ f.ind = "" then do
    let a ← askUser env "Search existing masternode collateral ready transaction in the wallet? Y/N"
    if a.1 then do
      let m ← getMasternodeOutputs env
      if m.length > 0 then do
        let arr := m.map Prod.fst
        let b ← askUser env "Enter number to use, or N to exit"
        match b.2.toInt? with
        | none => throwErr (Err.mk "user terminated - no collateral funds")
        | some d =>
          if d < 0 ∨ (m.length : Int) ≤ d then
            throwErr (Err.mk "user terminated - no collateral funds")
          else
            match arr.get? d.toNat with
            | none => throwErr (Err.mk "user terminated - no collateral funds")
            | some txid =>
              modifyFlags (fun fl =>
                { fl with txid := txid, ind := (List.lookup txid m).getD "" })
      else pure ()
    else pure ()
  else pure ())
  let f1 ← getFlags
  (if f1.txid = "" ∨ f1.ind = "" then do
    let collateralAmount :=
      if cfg.network = Network.testnet then "1"
      else if cfg.network = Network.regtest then "0.1"
      else "5"
    let collateralCoins :=
      if cfg.network = Network.testnet then "LSP"
      else if cfg.network = Network.regtest then "REG"
      else "PSL"
    let a ← askUser env ("Do you want to generate new local address and send " ++
      collateralAmount ++ "M " ++ collateralCoins ++ " to it from another wallet? Y/N")
    if a.1 then do
      let _address ← cliOut env ["getnewaddress"]
      let b ← askUser env "Enter txid of the send and press Enter to continue when ready"
      modifyFlags (fun fl => { fl with txid := trimNewlines b.2 })
    else throwErr (Err.mk "no collateral funds")
  else pure ())
  collateralLoop env fuel 1
  let f2 ← getFlags
  if f2.txid = "" ∨ f2.ind = "" then
    throwErr (Err.mk "Cannot find masternode outputs")
  else pure ()

/-- Embeds `prepareMasterNodeParameters` (cmd/start.go): only acts when
--create or --update was given; optionally starts the local daemon, waits for
sync, then resolves collateral, passphrase, private key and pastelid in order,
finally stopping the daemon again when it had started it. -/
def prepareMasterNodeParameters (env : Env) (cfg : Config) (startPasteld : Bool) (fuel : Nat) : M Unit := do
  let f ← getFlags
  if (!f.confNew && !f.confAdd) = true then pure ()
  else do
    (if startPasteld then runPastelNodeOp env "" else pure ())
    checkMasterNodeSyncOp env
    checkCollateral env cfg fuel
    checkPassphrase env
    checkMasternodePrivKey env cfg false
    checkPastelID env cfg false
    (if startPasteld then stopPastelDAndWaitOp env else pure ())

/-- Embeds `runStartMasternode` (cmd/start.go): parse pastel.conf, read the
masternode registry entry, auto-discover the external IP when the --ip flag is
absent, fail fatally on an IP mismatch with the registry entry, and only then
start the local daemon in masternode mode with the registry private key. -/
def runStartMasternode (env : Env) (_cfg : Config) : M Unit := do
  let _network ← oracleRes env.parseConfRes
  let conf ← oracleRes env.mnConfDataRes
  let f ← getFlags
  (if f.extIPFlag = "" then do
    match env.extIPRes with
    | Res.err _ => throwErr (Err.mk "cannot get external ip address")
    | Res.ok ip => modifyFlags (fun fl => { fl with extIPFlag := ip })
  else pure ())
  let f1 ← getFlags
  if conf.2.1 ≠ f1.extIPFlag then
    throwErr (Err.mk "External IP address in masternode.conf MUST match WAN address of the node")
  else
    runPastelNodeOp env conf.1

/-- Embeds `runStartAliasMasternode` (cmd/start.go): run
`masternode start-alias <name>`, parse the JSON result, and fail when the
result field is "failed". -/
def runStartAliasMasternode (env : Env) (masternodeName : String) : M Unit := do
  let output ← cliOut env ["masternode", "start-alias", masternodeName]
  match env.parseAlias output with
  | Res.err e => throwErr e
  | Res.ok st =>
    if st.1 = "failed" then throwErr (Err.mk "masternode start alias failed")
    else pure ()

/-! ## cmd/start_coldhot.go embeddings (and the part_002 variant) -/

/-- Embeds the polling loop of `CheckPastelDRunningRemote`
(cmd/start_coldhot.go lines 343-368): query `getinfo` over SSH; on failure with
`want = false` report **false** (this variant treats "unreachable" as *not*
stopped-successfully); with `want = true` sleep 5s and retry until the 12th
consecutive failure.  The budget argument is `12 - failCnt`. -/
def checkRunningLoop (env : Env) (cliPath : String) (want : Bool) : Nat → M Bool
  | 0 => pure false
  | Nat.succ b => do
    let r ← sshTry env (cliPath ++ " getinfo")
    match r with
    | Res.ok _ => pure true
    | Res.err _ =>
      if want = false then pure false
      else do
        sleepOp 5
        if b = 0 then pure false
        else checkRunningLoop env cliPath want b

/-- Embeds `CheckPastelDRunningRemote` (cmd/start_coldhot.go lines 343-368). -/
def CheckPastelDRunningRemote (env : Env) (cliPath : String) (want : Bool) : M Bool :=
  checkRunningLoop env cliPath want 12

/-- Embeds the polling loop of the `CheckPastelDRunningRemote` variant in
src/unnamed/part_002 (lines 324-349): identical to `checkRunningLoop` except
that a failing `getinfo` with `want = false` reports **true** ("remote pasteld
stopped"). -/
def checkRunningLoop2 (env : Env) (cliPath : String) (want : Bool) : Nat → M Bool
  | 0 => pure false
  | Nat.succ b => do
    let r ← sshTry env (cliPath ++ " getinfo")
    match r with
    | Res.ok _ => pure true
    | Res.err _ =>
      if want = false then pure true
      else do
        sleepOp 5
        if b = 0 then pure false
        else checkRunningLoop2 env cliPath want b

/-- Embeds the `CheckPastelDRunningRemote` variant of src/unnamed/part_002. -/
def CheckPastelDRunningRemote2 (env : Env) (cliPath : String) (want : Bool) : M Bool :=
  checkRunningLoop2 env cliPath want 12

/-- Embeds `ColdHotRunner.checkMasterNodeSyncRemote` (identical in
cmd/start_coldhot.go lines 396-438 and src/unnamed/part_002 lines 380-422):
poll `mnsync status` over SSH (retrying a failed query once when
`retryCount = 0`), parse the JSON status, issue `mnsync reset` and sleep 10s
whenever the reported asset name is "Initial", stop successfully as soon as
`IsSynced` is set, and otherwise sleep 10s and poll again.  `fuel` bounds the
otherwise unbounded loop. -/
def checkMasterNodeSyncRemote (env : Env) (cliPath : String) : Nat → Nat → M Unit
  | _, 0 => throwErr (Err.mk "model: sync loop out of fuel")
  | retryCount, Nat.succ fuel => do
    let r ← sshTry env (cliPath ++ " mnsync status")
    match r with
    | Res.err e =>
      if retryCount = 0 then do
        sleepOp 5
        checkMasterNodeSyncRemote env cliPath 1 fuel
      else throwErr e
    | Res.ok output =>
      match env.parseMS output with
      | Res.err e => throwErr e
      | Res.ok mnstatus => do
        (if mnstatus.AssetName = "Initial" then do
          let _ ← sshOut env (cliPath ++ " mnsync reset")
          sleepOp 10
        else pure ())
        if mnstatus.IsSynced then pure ()
        else do
          sleepOp 10
          checkMasterNodeSyncRemote env cliPath retryCount fuel

/-- Embeds `ColdHotRunner.handleCreateUpdateStartColdHot`
(cmd/start_coldhot.go lines 275-322): collateral check, passphrase check,
detached remote pasteld launch, remote liveness poll, remote key generation
(genkey, pastelid newkey), remote stop, 5s sleep, and a masternode.conf backup
when --create was given. -/
def ColdHotRunner.handleCreateUpdateStartColdHot (env : Env) (cfg : Config) (opts : Opts) (fuel : Nat) : M Unit := do
  checkCollateral env cfg fuel
  checkPassphrase env
  let f ← getFlags
  sshFire env (opts.remotePasteld ++ " --reindex --externalip=" ++ f.extIPFlag ++
    " --data-dir=" ++ cfg.remoteWorkingDir ++ " --daemon " ++ opts.testnetOption)
  let ok ← CheckPastelDRunningRemote env opts.remotePastelCli true
  (if ok then pure ()
   else throwErr (Err.mk "unable to start pasteld on remote"))
  checkMasternodePrivKey env cfg true
  checkPastelID env cfg true
  let _ ← sshOut env (opts.remotePastelCli ++ " stop")
  sleepOp 5
  let f1 ← getFlags
  if f1.isCreate then backupConfOp env
  else pure ()

/-- Embeds `ColdHotRunner.remoteHotNodeCtrl` (cmd/start_coldhot.go lines
370-394): detached plain-mode remote launch, liveness poll, remote sync wait,
remote stop, 5s sleep. -/
def ColdHotRunner.remoteHotNodeCtrl (env : Env) (cfg : Config) (opts : Opts) (fuel : Nat) : M Unit := do
  let f ← getFlags
  sshFire env (opts.remotePasteld ++ " --reindex --externalip=" ++ f.extIPFlag ++
    " --data-dir=" ++ cfg.remoteWorkingDir ++ " --daemon " ++ opts.testnetOption)
  let ok ← CheckPastelDRunningRemote env opts.remotePastelCli true
  (if ok then pure ()
   else throwErr (Err.mk "unable to start pasteld on remote"))
  checkMasterNodeSyncRemote env opts.remotePastelCli 0 fuel
  let _ ← sshOut env (opts.remotePastelCli ++ " stop")
  sleepOp 5

/-- Embeds `ColdHotRunner.runRemoteNodeAsMasterNode` (cmd/start_coldhot.go
lines 249-273): detached masternode-mode remote launch with the private key,
liveness poll, remote sync wait. -/
def ColdHotRunner.runRemoteNodeAsMasterNode (env : Env) (cfg : Config) (opts : Opts) (fuel : Nat) : M Unit := do
  let f ← getFlags
  sshFire env (opts.remotePasteld ++ " --masternode --txindex=1 --reindex --masternodeprivkey=" ++
    f.privKey ++ " --externalip=" ++ f.extIPFlag ++ "  --data-dir=" ++ cfg.remoteWorkingDir ++
    " " ++ opts.testnetOption ++ " --daemon ")
  let ok ← CheckPastelDRunningRemote env opts.remotePastelCli true
  (if ok then pure ()
   else throwErr (Err.mk "unable to start pasteld on remote"))
  checkMasterNodeSyncRemote env opts.remotePastelCli 0 fuel

/-- Embeds `ColdHotRunner.runServiceRemote` (cmd/start_coldhot.go lines
324-340): run the remote host's pastel-utility `start <service>` (with
--work-dir when the remote working dir is set) synchronously over SSH; an error
is fatal. -/
def ColdHotRunner.runServiceRemote (env : Env) (cfg : Config) (opts : Opts) (service : String) : M Unit := do
  let cmd := opts.remotePastelUtility ++ " " ++ "start" ++ " " ++ service
  let cmd := if cfg.remoteWorkingDir ≠ "" then cmd ++ " --work-dir=" ++ cfg.remoteWorkingDir else cmd
  let _ ← sshOut env cmd
  pure ()

/-- Embeds `ColdHotRunner.registerTicketPastelID` (src/unnamed/part_002 lines
302-321, called from cmd/start_coldhot.go Run): register the mnid ticket over
SSH. -/
def ColdHotRunner.registerTicketPastelID (env : Env) (opts : Opts) : M Unit := do
  let f ← getFlags
  let _ ← sshOut env (opts.remotePastelCli ++ " " ++ "tickets register mnid" ++ " " ++
    f.pastelID ++ " " ++ f.passPhrase)
  pure ()

/-- Embeds `ColdHotRunner.Run` (cmd/start_coldhot.go lines 119-247): the
cold/hot orchestration sequence — local daemon start; optional
create/update parameter step plus registry and supernode-config writes; local
stop; remote plain-mode warm-up; registry read; remote masternode-mode launch;
local restart; optional activation (with logged-only ticket registration);
local stop; rq-service, dd-service; supernode config copy and chmod;
supernode-service.  The service names "rq-service", "dd-service" and
"supernode" are the values of constants.RQService, constants.DDService and
constants.SuperNode (modelled from the spec's CLI surface; the constants file
is not under src/). -/
def ColdHotRunner.Run (env : Env) (cfg : Config) (opts : Opts) (fuel : Nat) : M Unit := do
  runPastelNodeOp env ""
  let f ← getFlags
  (if (f.isCreate || f.isUpdate) = true then do
    ColdHotRunner.handleCreateUpdateStartColdHot env cfg opts fuel
    let f2 ← getFlags
    (if f2.p2pIP = "" then modifyFlags (fun fl => { fl with p2pIP := fl.extIPFlag })
     else pure ())
    writeMasternodeConfOp env
    writeSuperNodeConfOp env
  else pure ())
  stopPastelDAndWaitOp env
  ColdHotRunner.remoteHotNodeCtrl env cfg opts fuel
  let conf ← oracleRes env.mnConfDataRes
  modifyFlags (fun fl => { fl with privKey := conf.1 })
  ColdHotRunner.runRemoteNodeAsMasterNode env cfg opts fuel
  runPastelNodeOp env ""
  let f3 ← getFlags
  (if f3.isActivate then do
    checkMasterNodeSyncOp env
    runStartAliasMasternode env f3.name
    let f4 ← getFlags
    (if f4.isCreate then tryIgnoreErr (ColdHotRunner.registerTicketPastelID env opts)
     else pure ())
  else pure ())
  stopPastelDAndWaitOp env
  ColdHotRunner.runServiceRemote env cfg opts "rq-service"
  ColdHotRunner.runServiceRemote env cfg opts "dd-service"
  let snConfigPath := cfg.snConfFile cfg.workingDir
  let remoteSnConfigPath := replaceBackslashes (cfg.snConfFile cfg.remoteWorkingDir)
  scpOp env snConfigPath remoteSnConfigPath
  let _ ← sshOut env ("chmod 755 " ++ snConfigPath)
  ColdHotRunner.runServiceRemote env cfg opts ("supernode" ++ "-" ++ "service")

/-! ## servicemanager embeddings (src/unnamed/part_001 lines 1-322) -/

namespace servicemanager

/-- `constants.ToolType` values handled by the service manager. -/
inductive ToolType where
  | pasteld
  | walletnode
  | supernode
  | rqservice
  | ddservice
  | ddimgservice
  | hermes
  | bridge
deriving DecidableEq, Repr

/-- String value of each tool identity (modelled from the spec's tool names;
the constants file defining them is not under src/ — only the name's exact
spelling matters for path equality below, never across tools). -/
def toolName : ToolType → String
  | ToolType.pasteld => "pasteld"
  | ToolType.walletnode => "walletnode"
  | ToolType.supernode => "supernode"
  | ToolType.rqservice => "rq-service"
  | ToolType.ddservice => "dd-service"
  | ToolType.ddimgservice => "dd-img-server"
  | ToolType.hermes => "hermes"
  | ToolType.bridge => "bridge"

/-- Modelled from the spec: `constants.SystemdServicePrefix` (value not under
src/); the same constant is used on both the write and the check path, so its
exact value is immaterial to the claims below. -/
def systemdSvcPre : String := "pastel-"

/-- Modelled from the spec: `constants.SystemdSystemDir` — the source comment at
part_001 line 124 states the service file "will be installed at
/etc/systemd/system". -/
def SystemdSystemDir : String := "/etc/systemd/system"

/-- Modelled from the spec: `constants.SystemdUserDir` — a home-directory
relative systemd user-unit directory (joined under `homeDir` by IsRegistered),
standard layout `.config/systemd/user`. -/
def SystemdUserDir : String := ".config/systemd/user"

/-- Embeds `LinuxSystemdManager.ServiceName`. -/
def ServiceName (app : ToolType) : String :=
  systemdSvcPre ++ toolName app ++ ".service"

/-- Result of `os.Stat` on a path. -/
inductive StatRes where
  | found
  | notExist
  | statErr
deriving DecidableEq, Repr

/-- An `os.Stat` oracle derived from an explicit file-system state (set of
existing paths): a path stats as found exactly when it is in the set. -/
def statOfList (fs : List String) : String → StatRes :=
  fun p => if p ∈ fs then StatRes.found else StatRes.notExist

/-- Events of a service-manager execution: invocations of the systemd
supervisor (`runSystemdCmd verb serviceName`). -/
inductive SMEvent where
  | systemd : String → String → SMEvent
deriving DecidableEq, Repr

/-- Environment for the service manager: the stat oracle, the systemd command
stream (captured output, error), existence of executables
(`utils.CheckFileExist`), the rendered unit-file text (`utils.GetServiceConfig`),
the write result per path (`ioutil.WriteFile`), and external-IP discovery. -/
structure SMEnv where
  stat : String → StatRes
  systemd : Nat → String × Option Err
  fileExistsB : String → Bool
  svcConfig : Res String
  writeRes : String → Option Err
  extIPRes : Res String

/-- The registration parameters used by RegisterService
(`ResgistrationParams` with the config fields it reads). -/
structure SMParams where
  pastelExecDir : String
  workingDir : String
  flagDevMode : Bool

/-- Embeds `LinuxSystemdManager.IsRegistered` (part_001 lines 293-304): stat
the unit file under `homeDir/SystemdUserDir`; not-exist maps to (false, nil),
another stat error to (false, err). -/
def IsRegistered (stat : String → StatRes) (homeDir : String) (app : ToolType) : Bool × Option Err :=
  let fp := homeDir ++ "/" ++ SystemdUserDir ++ "/" ++ ServiceName app
  match stat fp with
  | StatRes.found => (true, none)
  | StatRes.notExist => (false, none)
  | StatRes.statErr => (false, some (Err.mk "stat error"))

/-- Checks for the "(running)" marker in systemctl status output
(Go `strings.Contains res "(running)"`). -/
def containsRunning : List Char → Bool
  | [] => "(running)".data.isEmpty
  | c :: t => if "(running)".data.isPrefixOf (c :: t) then true else containsRunning t

/-- Embeds `LinuxSystemdManager.IsRunning` (part_001 lines 286-291): run
`systemctl status` and string-match the running marker, ignoring the command's
error. -/
def IsRunning (env : SMEnv) (sysIdx : Nat) (app : ToolType) : List SMEvent × Bool :=
  ([SMEvent.systemd "status" (ServiceName app)],
    containsRunning (env.systemd sysIdx).1.data)

/-- Embeds `LinuxSystemdManager.StartService` (part_001 lines 226-242): skip
with (false, nil) when unregistered; report (true, nil) without a start verb
when already running; otherwise issue the start verb and surface its failure. -/
def StartService (env : SMEnv) (homeDir : String) (app : ToolType) : List SMEvent × Bool × Option Err :=
  let isRegisted := (IsRegistered env.stat homeDir app).1
  if ¬isRegisted then ([], false, none)
  else
    let run := IsRunning env 0 app
    if run.2 then (run.1, true, none)
    else
      let startEv := SMEvent.systemd "start" (ServiceName app)
      match (env.systemd 1).2 with
      | some _ => (run.1 ++ [startEv], false, some (Err.mk "unable to start service"))
      | none => (run.1 ++ [startEv], true, none)

/-- Embeds `NoopManager.StartService` (part_001 lines 64-67). -/
def NoopStartService (_app : ToolType) : Bool × Option Err := (false, none)

/-- Embeds `LinuxSystemdManager.RegisterService` (part_001 lines 113-223):
return immediately when already registered; otherwise resolve the tool's
executable/launch spec (the per-tool switch — note the missing-executable
branches return the still-nil `err`), render the unit file, write it at
`SystemdSystemDir/ServiceName app` (a failing write is only logged), then
enable the service.  Returns (written unit-file paths, systemd events, result). -/
def RegisterService (env : SMEnv) (homeDir : String) (app : ToolType) (params : SMParams) :
    List String × List SMEvent × Res Unit :=
  if (IsRegistered env.stat homeDir app).1 then ([], [], Res.ok ())
  else
    let appServiceFilePath := SystemdSystemDir ++ "/" ++ ServiceName app
    let spec : Res (Option (String × String)) :=
      match app with
      | ToolType.ddimgservice =>
        Res.ok (some ("python3 -m  http.server 8000",
          homeDir ++ "/" ++ "pastel_dupe_detection_service" ++ "/img_server"))
      | ToolType.pasteld =>
        let execPath := params.pastelExecDir ++ "/" ++ "pasteld"
        if ¬env.fileExistsB execPath then Res.ok none
        else
          match env.extIPRes with
          | Res.err e => Res.err e
          | Res.ok extIP =>
            Res.ok (some (execPath ++ " --datadir=" ++ params.workingDir ++
              " --externalip=" ++ extIP, params.pastelExecDir))
      | ToolType.rqservice =>
        let execPath := params.pastelExecDir ++ "/" ++ "rq-service-linux-amd64"
        if ¬env.fileExistsB execPath then Res.ok none
        else Res.ok (some (execPath ++ " --config-file=" ++ params.workingDir ++
          "/rqservice.toml", params.pastelExecDir))
      | ToolType.ddservice =>
        let execPath := params.pastelExecDir ++ "/" ++ "dupe_detection_server.py"
        if ¬env.fileExistsB execPath then Res.ok none
        else Res.ok (some ("python3 " ++ execPath ++ " " ++ homeDir ++
          "/pastel_dupe_detection_service/support_files/config.ini", params.pastelExecDir))
      | ToolType.supernode =>
        let execPath := params.pastelExecDir ++ "/" ++ "supernode-linux-amd64"
        if ¬env.fileExistsB execPath then Res.ok none
        else Res.ok (some (execPath ++ " --config-file=" ++ params.workingDir ++
          "/supernode.yml", params.pastelExecDir))
      | ToolType.walletnode =>
        let execPath := params.pastelExecDir ++ "/" ++ "walletnode-linux-amd64"
        if ¬env.fileExistsB execPath then Res.ok none
        else
          let cmd := execPath ++ " --config-file=" ++ params.workingDir ++ "/walletnode.yml"
          Res.ok (some (if params.flagDevMode then cmd ++ " --swagger" else cmd,
            params.pastelExecDir))
      | _ => Res.ok none
    match spec with
    | Res.err e => ([], [], Res.err e)
    | Res.ok none => ([], [], Res.ok ())
    | Res.ok (some _cmdWork) =>
      match env.svcConfig with
      | Res.err _ => ([], [], Res.err (Err.mk "unable ot create service file"))
      | Res.ok _unit =>
        let written :=
          match env.writeRes appServiceFilePath with
          | none => [appServiceFilePath]
          | some _ => []
        (written, [SMEvent.systemd "enable" (ServiceName app)], Res.ok ())

end servicemanager

/-! ## install embeddings (src/unnamed/part_001 lines 1513-1623) -/

namespace install

/-- Events of the working-environment setup. -/
inductive IEvent where
  | createFolder : String → IEvent
  | createFile : String → IEvent
  | writeFile : String → String → IEvent
  | zkDownload : IEvent
deriving DecidableEq, Repr

/-- The fields of `configs.Config` read and mutated by
`setupBasePasteWorkingEnvironment` and `updatePastelConfigFile`. -/
structure IConfig where
  opMode : String
  workingDir : String
  rpcPort : Nat
  rpcUser : String
  rpcPwd : String
  regenRPC : Bool
  network : Network
  peers : String
  force : Bool
deriving DecidableEq, Repr

/-- Environment for the setup: folder/file creation results (in call order),
the SN port-list value for the node RPC port (`GetSNPortList`), the generated
random credentials (`utils.GenerateRandomString(8)` / `(15)`), the config-file
write result, and the zksnark download result with its `os.IsExist` flag. -/
structure IEnv where
  createFolderRes : Nat → Option Err
  createFileRes : Option Err
  snPortRPC : Nat
  randUser : String
  randPwd : String
  writeRes : Option Err
  zkRes : Option Err
  zkIsExist : Bool

/-- The pastel.conf content built line by line by `updatePastelConfigFile`
(part_001 lines 1588-1623). -/
def pastelConfContent (cfg : IConfig) : String :=
  "server=1\n" ++ "listen=1\n\n" ++
  "rpcuser=" ++ cfg.rpcUser ++ "\n" ++
  "rpcpassword=" ++ cfg.rpcPwd ++ "\n" ++
  "rpcport=" ++ toString cfg.rpcPort ++ "\n" ++
  (if cfg.network = Network.testnet then "testnet=1\n" else "") ++
  (if cfg.network = Network.regtest then "regtest=1\n" else "") ++
  (if cfg.peers ≠ "" then
    ((cfg.peers.splitOn ",").map (fun node => "addnode=" ++ node ++ "\n")).foldl
      (fun acc l => acc ++ l) ""
  else "")

/-- Embeds `updatePastelConfigFile`: build the content and write it to the file
(`ioutil.WriteFile`). -/
def updatePastelConfigFile (env : IEnv) (filePath : String) (cfg : IConfig) :
    List IEvent × Option Err :=
  ([IEvent.writeFile filePath (pastelConfContent cfg)], env.writeRes)

/-- Embeds `setupBasePasteWorkingEnvironment` (part_001 lines 1536-1586):
no-op outside install mode; create the working dir; regenerate each RPC
credential only when it is zero/empty or RegenRPC is set; create and write
pastel.conf; create the zksnark dir and download the parameters (an "already
exists" download error without --force falls through to success).
Returns the final config, the event trace, and the result. -/
def setupBasePasteWorkingEnvironment (env : IEnv) (cfg : IConfig) :
    IConfig × List IEvent × Option Err :=
  if cfg.opMode ≠ "install" then (cfg, [], none)
  else
    match env.createFolderRes 0 with
    | some e => (cfg, [IEvent.createFolder cfg.workingDir], some e)
    | none =>
      let cfg1 := if cfg.rpcPort = 0 ∨ cfg.regenRPC then { cfg with rpcPort := env.snPortRPC } else cfg
      let cfg2 := if cfg1.rpcUser = "" ∨ cfg1.regenRPC then { cfg1 with rpcUser := env.randUser } else cfg1
      let cfg3 := if cfg2.rpcPwd = "" ∨ cfg2.regenRPC then { cfg2 with rpcPwd := env.randPwd } else cfg2
      let pastelConfigPath := cfg3.workingDir ++ "/" ++ "pastel.conf"
      let evs0 := [IEvent.createFolder cfg.workingDir, IEvent.createFile pastelConfigPath]
      match env.createFileRes with
      | some e => (cfg3, evs0, some e)
      | none =>
        let w := updatePastelConfigFile env pastelConfigPath cfg3
        match w.2 with
        | some e => (cfg3, evs0 ++ w.1, some e)
        | none =>
          let evs1 := evs0 ++ w.1 ++ [IEvent.createFolder "zksnark", IEvent.zkDownload]
          match env.createFolderRes 1 with
          | some e => (cfg3, evs0 ++ w.1 ++ [IEvent.createFolder "zksnark"], some e)
          | none =>
            match env.zkRes with
            | some e =>
              if env.zkIsExist ∧ ¬cfg3.force then (cfg3, evs1, none)
              else (cfg3, evs1, some e)
            | none => (cfg3, evs1, none)

end install

/-! ## Concrete states and environments used by witnesses and counterexamples -/

/-- A fixed error value used by the concrete environments. -/
def errX : Err := Err.mk "boom"

/-- Flag variables with nothing populated. -/
def flags0 : Flags :=
  { name := "mn1", txid := "", ind := "", passPhrase := "", privKey := "",
    pastelID := "", extIPFlag := "", p2pIP := "", isCreate := false,
    isUpdate := false, isActivate := false, confNew := false, confAdd := false }

/-- Initial state over the given flags (all call counters zero). -/
def st0 (f : Flags) : St :=
  { flags := f, sshCnt := 0, cliCnt := 0, askCnt := 0, startCnt := 0,
    stopCnt := 0, syncCnt := 0 }

/-- A benign default environment (every call succeeds with empty output,
every parse fails — each concrete scenario overrides what it uses). -/
def baseEnv : Env :=
  { ssh := fun _ => Res.ok "", scpRes := none, cli := fun _ => Res.ok "",
    ask := fun _ => (false, ""), startRes := fun _ => none,
    stopRes := fun _ => none, syncRes := fun _ => none,
    extIPRes := Res.ok "10.10.10.10", parseConfRes := Res.ok Network.mainnet,
    mnConfDataRes := Res.ok ("pk", "10.0.0.5", "9933"), mnConfWrite := none,
    snConfWrite := none, backupRes := none, parseMS := fun _ => Res.err errX,
    parseOutputs := fun _ => Res.err errX, parsePastelID := fun _ => Res.err errX,
    parseAlias := fun _ => Res.err errX }

/-- A concrete deployment configuration with distinct local and remote
working directories (short names keep the concrete proofs small). -/
def cfgA : Config :=
  { workingDir := "/w", remoteWorkingDir := "/r",
    remoteHotPastelExecDir := "/x", network := Network.mainnet,
    reindex := false, snConfFile := fun w => w ++ "/sn.yml" }

/-- Concrete resolved remote paths. -/
def optsA : Opts :=
  { remotePasteld := "/d", remotePastelCli := "/c",
    remotePastelUtility := "/u", testnetOption := "" }

/-- C3 environment: four successfully parsed mnsync status responses
Initial, Initial, Syncing, Synced interleaved with the reset commands they
trigger on the single SSH stream. -/
def envC3 : Env :=
  { baseEnv with
    ssh := fun n =>
      if n = 0 then Res.ok "I" else if n = 1 then Res.ok "" else
      if n = 2 then Res.ok "I" else if n = 3 then Res.ok "" else
      if n = 4 then Res.ok "Y" else if n = 5 then Res.ok "S" else Res.ok "",
    parseMS := fun s =>
      if s = "I" then Res.ok { AssetName := "Initial", IsSynced := false }
      else if s = "Y" then Res.ok { AssetName := "Syncing", IsSynced := false }
      else if s = "S" then Res.ok { AssetName := "Synced", IsSynced := true }
      else Res.err errX }

/-- C1 flags: create mode with collateral, passphrase and pastelid already
populated but no private key, so the parameter step reaches the remote
genkey call. -/
def flagsC1 : Flags :=
  { flags0 with
    txid := "abcd1234", ind := "0", passPhrase := "hunter2",
    pastelID := "pid1", extIPFlag := "10.0.0.6", isCreate := true }

/-- C1 environment: the collateral is already confirmed (one outputs query
finds it), the remote daemon launch and liveness query succeed, and then the
remote `masternode genkey` fails — making handleCreateUpdateStartColdHot fail
after several remote commands were already issued. -/
def envC1 : Env :=
  { baseEnv with
    cli := fun _ => Res.ok "J",
    parseOutputs := fun s => if s = "J" then Res.ok [("abcd1234", "0")] else Res.err errX,
    ssh := fun n =>
      if n = 0 then Res.ok "" else if n = 1 then Res.ok "info" else Res.err errX }

/-- C6 flags: plain cold/hot start (no create/update/activate). -/
def flagsC6 : Flags := { flags0 with extIPFlag := "10.0.0.6" }

/-- C6 environment: every remote query succeeds and every mnsync status parses
as already synced, so Run reaches its final service-start phase. -/
def envC6 : Env :=
  { baseEnv with
    ssh := fun _ => Res.ok "S",
    parseMS := fun s =>
      if s = "S" then Res.ok { AssetName := "Synced", IsSynced := true }
      else Res.err errX }

/-- C7 flags: the collateral txid and index are supplied, so checkCollateral
goes straight to the confirmation-polling loop. -/
def flagsC7 : Flags :=
  { flags0 with txid := "abcd1234", ind := "0", passPhrase := "hunter2" }

/-- C7 environment: `masternode outputs` always returns the empty output (the
funding transaction never confirms); the user chooses to continue at the first
re-prompt and to stop at the second. -/
def envC7 : Env :=
  { baseEnv with
    cli := fun _ => Res.ok "",
    ask := fun n => if n = 0 then (true, "") else (false, "") }

/-- C4 flags: all four resolver values (collateral txid/index, passphrase,
private key, pastel id) already populated, in create mode. -/
def flagsC4 : Flags :=
  { flags0 with
    txid := "abcd1234", ind := "0", passPhrase := "hunter2",
    privKey := "mnpk", pastelID := "pid1", confNew := true }

/-- C4 environment: the one `masternode outputs` query finds the supplied
txid immediately. -/
def envC4 : Env :=
  { baseEnv with
    cli := fun _ => Res.ok "J",
    parseOutputs := fun s => if s = "J" then Res.ok [("abcd1234", "0")] else Res.err errX }

/-- C5 flags: the runtime-supplied external IP differs from the registry entry
IP (10.0.0.5) of `baseEnv.mnConfDataRes`. -/
def flagsC5 : Flags := { flags0 with extIPFlag := "10.0.0.6" }

/-- C2 environment: every remote getinfo query fails. -/
def envC2 : Env := { baseEnv with ssh := fun _ => Res.err errX }

/-- One failed polling attempt of the collateral loop: an outputs query
followed by the 10-second sleep; a round of `k` such attempts. -/
def pollRound (k : Nat) : List Event :=
  (List.replicate k [Event.cli ["masternode", "outputs"], Event.sleep 10]).flatten

/-! ## Generic lemmas about the embedding monad -/

theorem bind_def {α β : Type} (x : M α) (f : α → M β) : x >>= f = M.bind x f := rfl

theorem pure_def {α : Type} (a : α) : (pure a : M α) = M.pure a := rfl

/-- An events-classification predicate: every event any run of `x` can emit
satisfies `p`. -/
def evsOK {α : Type} (p : Event → Prop) (x : M α) : Prop :=
  ∀ s : St, ∀ e ∈ (x s).2.1, p e

theorem evsOK_bind {α β : Type} {p : Event → Prop} {x : M α} {f : α → M β}
    (hx : evsOK p x) (hf : ∀ a, evsOK p (f a)) : evsOK p (x >>= f) := by
  intro s e he
  rw [bind_def] at he
  unfold M.bind at he
  rcases hxs : x s with ⟨s', evs, r⟩
  rw [hxs] at he
  cases r with
  | ok a =>
    rcases hfs : f a s' with ⟨s'', evs2, r2⟩
    have he1 : e ∈ (match f a s' with
      | (s3, evs3, r3) => (s3, evs ++ evs3, r3)).2.1 := he
    rw [hfs] at he1
    have he2 : e ∈ evs ++ evs2 := he1
    rcases List.mem_append.mp he2 with h1 | h2
    · have hh := hx s e
      rw [hxs] at hh
      exact hh h1
    · have hh := hf a s' e
      rw [hfs] at hh
      exact hh h2
  | err e2 =>
    have he2 : e ∈ evs := he
    have hh := hx s e
    rw [hxs] at hh
    exact hh he2

theorem evsOK_pure {α : Type} {p : Event → Prop} (a : α) : evsOK p (pure a) := by
  intro s e he
  simp [pure_def, M.pure] at he

theorem evsOK_getFlags (p : Event → Prop) : evsOK p getFlags := by
  intro s e he
  simp [getFlags] at he

theorem evsOK_modifyFlags (p : Event → Prop) (f : Flags → Flags) : evsOK p (modifyFlags f) := by
  intro s e he
  simp [modifyFlags] at he

theorem evsOK_throwErr {α : Type} {p : Event → Prop} (e : Err) : evsOK p (throwErr e : M α) := by
  intro s ev he
  simp [throwErr] at he

theorem evsOK_oracleRes {α : Type} {p : Event → Prop} (r : Res α) : evsOK p (oracleRes r) := by
  intro s ev he
  simp [oracleRes] at he

theorem evsOK_sshTry {p : Event → Prop} (env : Env) (cmd : String)
    (h : ∀ c, p (Event.ssh c)) : evsOK p (sshTry env cmd) := by
  intro s e he
  simp only [sshTry, List.mem_singleton] at he
  subst he
  exact h cmd

theorem evsOK_sshOut {p : Event → Prop} (env : Env) (cmd : String)
    (h : ∀ c, p (Event.ssh c)) : evsOK p (sshOut env cmd) := by
  intro s e he
  simp only [sshOut, List.mem_singleton] at he
  subst he
  exact h cmd

theorem evsOK_sshFire {p : Event → Prop} (env : Env) (cmd : String)
    (h : ∀ c, p (Event.ssh c)) : evsOK p (sshFire env cmd) := by
  intro s e he
  simp only [sshFire, List.mem_singleton] at he
  subst he
  exact h cmd

theorem evsOK_cliOut {p : Event → Prop} (env : Env) (args : List String)
    (h : ∀ a, p (Event.cli a)) : evsOK p (cliOut env args) := by
  intro s e he
  simp only [cliOut, List.mem_singleton] at he
  subst he
  exact h args

theorem evsOK_askUser {p : Event → Prop} (env : Env) (msg : String)
    (h : ∀ m, p (Event.prompt m)) : evsOK p (askUser env msg) := by
  intro s e he
  simp only [askUser, List.mem_singleton] at he
  subst he
  exact h msg

theorem evsOK_sleepOp {p : Event → Prop} (n : Nat)
    (h : ∀ k, p (Event.sleep k)) : evsOK p (sleepOp n) := by
  intro s e he
  simp only [sleepOp, List.mem_singleton] at he
  subst he
  exact h n

theorem evsOK_backupConfOp {p : Event → Prop} (env : Env)
    (h : p Event.backupConf) : evsOK p (backupConfOp env) := by
  intro s e he
  simp only [backupConfOp, List.mem_singleton] at he
  subst he
  exact h

/-! ## C2: the two CheckPastelDRunningRemote variants -/

theorem checkRunningLoop_want_true_eq (env : Env) (cliPath : String) :
    ∀ (b : Nat) (st : St),
      checkRunningLoop env cliPath true b st = checkRunningLoop2 env cliPath true b st := by
  intro b
  induction b with
  | zero => intro st; rfl
  | succ n ih =>
    intro st
    unfold checkRunningLoop checkRunningLoop2
    simp only [bind_def, M.bind, sshTry]
    cases h : env.ssh st.sshCnt with
    | ok v => simp [h]
    | err e =>
      simp only [h]
      by_cases hn : n = 0
      · simp [hn, sleepOp, bind_def, M.bind]
      · simp [hn, sleepOp, bind_def, M.bind, ih]

/-- C2: the two cold/hot implementations of the remote running check.  For
`want = true` they agree on every input (state, trace and result); for an
execution where every remote getinfo query fails and `want = false`
(the stop-wait use), the cmd/start_coldhot.go variant reports `false`
(unreachable counts as still running) while the part_002 variant reports
`true` (unreachable counts as stopped). -/
theorem c2_stop_wait_divergence :
    (∀ (env : Env) (cliPath : String) (st : St),
      CheckPastelDRunningRemote env cliPath true st =
        CheckPastelDRunningRemote2 env cliPath true st)
    ∧ CheckPastelDRunningRemote envC2 "/c" false (st0 flags0) =
        ({ st0 flags0 with sshCnt := 1 }, [Event.ssh "/c getinfo"], Res.ok false)
    ∧ CheckPastelDRunningRemote2 envC2 "/c" false (st0 flags0) =
        ({ st0 flags0 with sshCnt := 1 }, [Event.ssh "/c getinfo"], Res.ok true) := by
  exact ⟨fun env cliPath st => checkRunningLoop_want_true_eq env cliPath 12 st, rfl, rfl⟩

/-! ## C3: the remote sync-status poller -/

/-- The exact event trace of the C3 scenario: a status query and a reset for
each Initial response (with the two 10-second waits), a status query with a
plain wait for Syncing, and a final status query for Synced. -/
def evsC3 : List Event :=
  [Event.ssh "/c mnsync status",
   Event.ssh "/c mnsync reset",
   Event.sleep 10, Event.sleep 10,
   Event.ssh "/c mnsync status",
   Event.ssh "/c mnsync reset",
   Event.sleep 10, Event.sleep 10,
   Event.ssh "/c mnsync status",
   Event.sleep 10,
   Event.ssh "/c mnsync status"]

/-- C3: on the successfully parsed status sequence Initial, Initial, Syncing,
Synced (only Synced has IsSynced), checkMasterNodeSyncRemote issues exactly two
`mnsync reset` commands — one right after each Initial response, none after
Syncing or Synced — and returns success upon the Synced response. -/
theorem c3_sync_reset_per_initial :
    checkMasterNodeSyncRemote envC3 "/c" 0 10 (st0 flags0) =
      ({ st0 flags0 with sshCnt := 6 }, evsC3, Res.ok ())
    ∧ evsC3.count (Event.ssh "/c mnsync reset") = 2 := by
  exact ⟨rfl, by decide⟩

/-! ## C6: final phase of the cold/hot Run -/

/-- Sequential evaluation of a bind: combine the evaluations of the two
stages, concatenating traces. -/
theorem seq3 {α β : Type} {x : M α} {f : α → M β} {s s1 s2 : St}
    {e1 e2 e3 : List Event} {a : α} {r : Res β}
    (hx : x s = (s1, e1, Res.ok a)) (hf : f a s1 = (s2, e2, r))
    (he : e1 ++ e2 = e3) :
    M.bind x f s = (s2, e3, r) := by
  unfold M.bind
  rw [hx]
  simp only [hf]
  rw [he]

/-- Sequential evaluation of a bind whose first stage fails: the error
short-circuits. -/
theorem seq_err {α β : Type} {x : M α} {f : α → M β} {s s1 : St}
    {e1 : List Event} {e : Err}
    (hx : x s = (s1, e1, Res.err e)) :
    M.bind x f s = (s1, e1, Res.err e) := by
  unfold M.bind
  rw [hx]

/-- C6 environment variant in which the dd-service start command (the 9th SSH
command of the run) fails. -/
def envC6b : Env :=
  { envC6 with
    ssh := fun n => if n = 8 then Res.err errX else Res.ok "S" }

/-- The exact event trace of the C6 scenario run. -/
def evsC6 : List Event :=
  [Event.localNodeStart "", Event.localNodeStop,
   Event.ssh "/d --reindex --externalip=10.0.0.6 --data-dir=/r --daemon ",
   Event.ssh "/c getinfo",
   Event.ssh "/c mnsync status",
   Event.ssh "/c stop",
   Event.sleep 5,
   Event.ssh "/d --masternode --txindex=1 --reindex --masternodeprivkey=pk --externalip=10.0.0.6  --data-dir=/r  --daemon ",
   Event.ssh "/c getinfo",
   Event.ssh "/c mnsync status",
   Event.localNodeStart "", Event.localNodeStop,
   Event.ssh "/u start rq-service --work-dir=/r",
   Event.ssh "/u start dd-service --work-dir=/r",
   Event.scpFile "/w/sn.yml" "/r/sn.yml",
   Event.ssh "chmod 755 /w/sn.yml",
   Event.ssh "/u start supernode-service --work-dir=/r"]

/-- The C6 run's state after the local start, skipped parameter step and local
stop. -/
def stC6a : St := { st0 flagsC6 with startCnt := 1, stopCnt := 1 }

/-- The C6 run's state after the remote plain-mode warm-up (4 SSH commands). -/
def stC6b : St := { st0 flagsC6 with startCnt := 1, stopCnt := 1, sshCnt := 4 }

/-- The C6 run's state after the registry read stored the private key. -/
def stC6c : St :=
  { st0 flagsC6 with
    flags := { flagsC6 with privKey := "pk" },
    startCnt := 1, stopCnt := 1, sshCnt := 4 }

/-- The C6 run's state after the remote masternode-mode launch (3 more SSH
commands). -/
def stC6d : St :=
  { st0 flagsC6 with
    flags := { flagsC6 with privKey := "pk" },
    startCnt := 1, stopCnt := 1, sshCnt := 7 }

/-- Evaluation of the remote plain-mode warm-up in the C6 scenario. -/
theorem c6_hot_eval :
    ColdHotRunner.remoteHotNodeCtrl envC6 cfgA optsA 2 stC6a =
      (stC6b,
       [Event.ssh "/d --reindex --externalip=10.0.0.6 --data-dir=/r --daemon ",
        Event.ssh "/c getinfo",
        Event.ssh "/c mnsync status",
        Event.ssh "/c stop",
        Event.sleep 5], Res.ok ()) := rfl

/-- Evaluation of the remote masternode-mode launch in the C6 scenario. -/
theorem c6_mn_eval :
    ColdHotRunner.runRemoteNodeAsMasterNode envC6 cfgA optsA 2 stC6c =
      (stC6d,
       [Event.ssh "/d --masternode --txindex=1 --reindex --masternodeprivkey=pk --externalip=10.0.0.6  --data-dir=/r  --daemon ",
        Event.ssh "/c getinfo",
        Event.ssh "/c mnsync status"], Res.ok ()) := rfl

/-- Evaluation of the remote plain-mode warm-up under the failing-dd-service
environment (identical up to this point). -/
theorem c6b_hot_eval :
    ColdHotRunner.remoteHotNodeCtrl envC6b cfgA optsA 2 stC6a =
      (stC6b,
       [Event.ssh "/d --reindex --externalip=10.0.0.6 --data-dir=/r --daemon ",
        Event.ssh "/c getinfo",
        Event.ssh "/c mnsync status",
        Event.ssh "/c stop",
        Event.sleep 5], Res.ok ()) := rfl

/-- Evaluation of the remote masternode-mode launch under the
failing-dd-service environment (identical up to this point). -/
theorem c6b_mn_eval :
    ColdHotRunner.runRemoteNodeAsMasterNode envC6b cfgA optsA 2 stC6c =
      (stC6d,
       [Event.ssh "/d --masternode --txindex=1 --reindex --masternodeprivkey=pk --externalip=10.0.0.6  --data-dir=/r  --daemon ",
        Event.ssh "/c getinfo",
        Event.ssh "/c mnsync status"], Res.ok ()) := rfl

/-- The full evaluation of the C6 scenario run. -/
theorem c6_run_eval :
    ColdHotRunner.Run envC6 cfgA optsA 2 (st0 flagsC6) =
      ({ st0 flagsC6 with
          flags := { flagsC6 with privKey := "pk" },
          sshCnt := 11, startCnt := 2, stopCnt := 2 }, evsC6, Res.ok ()) := by
  unfold ColdHotRunner.Run
  simp only [bind_def]
  apply seq3 rfl
  apply seq3 rfl
  apply seq3 rfl
  apply seq3 rfl
  apply seq3 c6_hot_eval
  apply seq3 rfl
  apply seq3 rfl
  apply seq3 c6_mn_eval
  apply seq3 rfl
  apply seq3 rfl
  apply seq3 rfl
  apply seq3 rfl
  apply seq3 rfl
  apply seq3 rfl
  apply seq3 rfl
  apply seq3 rfl
  exact rfl
  all_goals rfl

/-- The full evaluation of the C6 scenario run under the failing-dd-service
environment: the run aborts at the dd-service start. -/
theorem c6b_run_eval :
    ColdHotRunner.Run envC6b cfgA optsA 2 (st0 flagsC6) =
      ({ st0 flagsC6 with
          flags := { flagsC6 with privKey := "pk" },
          sshCnt := 9, startCnt := 2, stopCnt := 2 }, evsC6.take 14, Res.err errX) := by
  unfold ColdHotRunner.Run
  simp only [bind_def]
  apply seq3 rfl
  apply seq3 rfl
  apply seq3 rfl
  apply seq3 rfl
  apply seq3 c6b_hot_eval
  apply seq3 rfl
  apply seq3 rfl
  apply seq3 c6b_mn_eval
  apply seq3 rfl
  apply seq3 rfl
  apply seq3 rfl
  apply seq3 rfl
  apply seq3 rfl
  exact seq_err rfl
  all_goals rfl

/-- C6: the final phase of ColdHotRunner.Run starts rq-service, dd-service and
supernode-service strictly in that order as synchronous remote commands, and
copies the local supernode config (/w/sn.yml) to the remote config path
(/r/sn.yml) before the supernode-service start; but the `chmod 755` issued
right after the copy names the **local** config path, not the remote file just
copied — the exact trace exhibits both the ordering and the wrong chmod
argument; the last conjuncts show the run aborting (no copy, no
supernode-service command) when the dd-service start command fails. -/
theorem c6_final_phase_chmod_local_path :
    ColdHotRunner.Run envC6 cfgA optsA 2 (st0 flagsC6) =
      ({ st0 flagsC6 with
          flags := { flagsC6 with privKey := "pk" },
          sshCnt := 11, startCnt := 2, stopCnt := 2 }, evsC6, Res.ok ())
    ∧ evsC6.drop 12 =
      [Event.ssh "/u start rq-service --work-dir=/r",
       Event.ssh "/u start dd-service --work-dir=/r",
       Event.scpFile (cfgA.snConfFile cfgA.workingDir)
         (replaceBackslashes (cfgA.snConfFile cfgA.remoteWorkingDir)),
       Event.ssh ("chmod 755 " ++ cfgA.snConfFile cfgA.workingDir),
       Event.ssh "/u start supernode-service --work-dir=/r"]
    ∧ cfgA.snConfFile cfgA.workingDir ≠ replaceBackslashes (cfgA.snConfFile cfgA.remoteWorkingDir)
    ∧ ColdHotRunner.Run envC6b cfgA optsA 2 (st0 flagsC6) =
      ({ st0 flagsC6 with
          flags := { flagsC6 with privKey := "pk" },
          sshCnt := 9, startCnt := 2, stopCnt := 2 }, evsC6.take 14, Res.err errX)
    ∧ (evsC6.take 14).count (Event.ssh "/u start supernode-service --work-dir=/r") = 0
    ∧ (evsC6.take 14).count (Event.scpFile "/w/sn.yml" "/r/sn.yml") = 0 := by
  exact ⟨c6_run_eval, by decide, by decide, c6b_run_eval, by decide, by decide⟩


/-! ## C7: collateral-confirmation polling rounds -/

/-- The exact event trace of the C7 scenario: a first round of 10 polling
attempts, the re-prompt, a second round of 9 attempts, the second re-prompt. -/
def evsC7 : List Event :=
  pollRound 10 ++
  Event.prompt "Still no collateral transaction. Continue? - Y/N" ::
  (pollRound 9 ++ [Event.prompt "Still no collateral transaction. Continue? - Y/N"])

/-- The state of the C7 scenario after `c` outputs queries and `a` re-prompts. -/
def stC7 (c a : Nat) : St :=
  { st0 flagsC7 with cliCnt := c, askCnt := a }

theorem pollRound_succ (k : Nat) :
    pollRound (k + 1) =
      Event.cli ["masternode", "outputs"] :: Event.sleep 10 :: pollRound k := by
  simp [pollRound, List.replicate_succ]

/-- One failed polling attempt of the loop at a position `i ≠ 10`, under the
C7 oracle (`masternode outputs` always empty): the attempt adds the query and
the sleep and recurses at `i + 1`. -/
theorem c7_step (fuel i c a : Nat) (s : St) (evs : List Event) (r : Res Unit)
    (h1 : i ≤ 10) (h2 : ¬i = 10)
    (h : collateralLoop envC7 fuel (i + 1) (stC7 (c + 1) a) = (s, evs, r)) :
    collateralLoop envC7 (fuel + 1) i (stC7 c a) =
      (s, Event.cli ["masternode", "outputs"] :: Event.sleep 10 :: evs, r) := by
  simp only [stC7, st0, flagsC7, flags0, envC7, baseEnv] at h
  unfold collateralLoop getMasternodeOutputs
  simp [bind_def, M.bind, cliOut, getFlags, sleepOp, M.pure, pure_def, h1, h2,
    stC7, st0, flagsC7, flags0, envC7, baseEnv, List.lookup_nil, h]

/-- The polling attempt at `i = 10` with no re-prompt seen yet: the user
chooses to continue, and the loop recurses at `i = 2`. -/
theorem c7_prompt_continue (fuel c : Nat) (s : St) (evs : List Event) (r : Res Unit)
    (h : collateralLoop envC7 fuel 2 (stC7 (c + 1) 1) = (s, evs, r)) :
    collateralLoop envC7 (fuel + 1) 10 (stC7 c 0) =
      (s, Event.cli ["masternode", "outputs"] :: Event.sleep 10 ::
        Event.prompt "Still no collateral transaction. Continue? - Y/N" :: evs, r) := by
  simp only [stC7, st0, flagsC7, flags0, envC7, baseEnv] at h
  unfold collateralLoop getMasternodeOutputs
  simp [bind_def, M.bind, cliOut, getFlags, sleepOp, askUser, M.pure, pure_def,
    stC7, st0, flagsC7, flags0, envC7, baseEnv, List.lookup_nil, h]

/-- The polling attempt at `i = 10` after one re-prompt: the user declines and
the loop fails with "user terminated". -/
theorem c7_prompt_stop (fuel c : Nat) :
    collateralLoop envC7 (fuel + 1) 10 (stC7 c 1) =
      (stC7 (c + 1) 2,
        [Event.cli ["masternode", "outputs"], Event.sleep 10,
         Event.prompt "Still no collateral transaction. Continue? - Y/N"],
        Res.err (Err.mk "user terminated")) := by
  unfold collateralLoop getMasternodeOutputs
  simp [bind_def, M.bind, cliOut, getFlags, sleepOp, askUser, throwErr, M.pure,
    pure_def, stC7, st0, flagsC7, flags0, envC7, baseEnv, List.lookup_nil]

/-- The tail of the C7 run from position `10 - m` of the second polling round:
`m` further misses, then the declined re-prompt. -/
theorem c7_second_round : ∀ (m : Nat), m ≤ 8 →
    collateralLoop envC7 (m + 3) (10 - m) (stC7 (18 - m) 1) =
      (stC7 19 2,
        pollRound m ++
          [Event.cli ["masternode", "outputs"], Event.sleep 10,
           Event.prompt "Still no collateral transaction. Continue? - Y/N"],
        Res.err (Err.mk "user terminated")) := by
  intro m
  induction m with
  | zero =>
    intro _
    have h := c7_prompt_stop 2 18
    simpa [pollRound] using h
  | succ n ih =>
    intro hm
    have e1 : 10 - (n + 1) + 1 = 10 - n := by omega
    have e2 : 18 - (n + 1) + 1 = 18 - n := by omega
    have ih' := ih (by omega)
    have step := c7_step (n + 3) (10 - (n + 1)) (18 - (n + 1)) 1 (stC7 19 2)
      (pollRound n ++
        [Event.cli ["masternode", "outputs"], Event.sleep 10,
         Event.prompt "Still no collateral transaction. Continue? - Y/N"])
      (Res.err (Err.mk "user terminated"))
      (by omega) (by omega) (by rw [e1, e2]; exact ih')
    rw [pollRound_succ, List.cons_append, List.cons_append]
    exact step

/-- The tail of the C7 run from position `10 - m` of the first polling round:
`m` further misses, the first re-prompt (continue), then the whole second
round. -/
theorem c7_first_round : ∀ (m : Nat), m ≤ 9 →
    collateralLoop envC7 (m + 12) (10 - m) (stC7 (9 - m) 0) =
      (stC7 19 2,
        pollRound m ++
          Event.cli ["masternode", "outputs"] :: Event.sleep 10 ::
          Event.prompt "Still no collateral transaction. Continue? - Y/N" ::
          (pollRound 8 ++
            [Event.cli ["masternode", "outputs"], Event.sleep 10,
             Event.prompt "Still no collateral transaction. Continue? - Y/N"]),
        Res.err (Err.mk "user terminated")) := by
  intro m
  induction m with
  | zero =>
    intro _
    have h2 := c7_second_round 8 (by omega)
    have h := c7_prompt_continue 11 9 (stC7 19 2)
      (pollRound 8 ++
        [Event.cli ["masternode", "outputs"], Event.sleep 10,
         Event.prompt "Still no collateral transaction. Continue? - Y/N"])
      (Res.err (Err.mk "user terminated")) (by exact h2)
    simpa [pollRound] using h
  | succ n ih =>
    intro hm
    have e1 : 10 - (n + 1) + 1 = 10 - n := by omega
    have e2 : 9 - (n + 1) + 1 = 9 - n := by omega
    have ih' := ih (by omega)
    have step := c7_step (n + 12) (10 - (n + 1)) (9 - (n + 1)) 0 (stC7 19 2)
      (pollRound n ++
        Event.cli ["masternode", "outputs"] :: Event.sleep 10 ::
        Event.prompt "Still no collateral transaction. Continue? - Y/N" ::
        (pollRound 8 ++
          [Event.cli ["masternode", "outputs"], Event.sleep 10,
           Event.prompt "Still no collateral transaction. Continue? - Y/N"]))
      (Res.err (Err.mk "user terminated"))
      (by omega) (by omega) (by rw [e1, e2]; exact ih')
    rw [pollRound_succ, List.cons_append, List.cons_append]
    exact step

/-- checkCollateral with populated txid and index reduces to the polling loop;
an error of the loop is the error of the whole check. -/
theorem checkCollateral_loop_err (env : Env) (cfg : Config) (fuel : Nat)
    (st s : St) (evs : List Event) (e : Err)
    (ht : st.flags.txid ≠ "") (hi : st.flags.ind ≠ "")
    (hloop : collateralLoop env fuel 1 st = (s, evs, Res.err e)) :
    checkCollateral env cfg fuel st = (s, evs, Res.err e) := by
  unfold checkCollateral
  simp [bind_def, M.bind, getFlags, M.pure, pure_def, ht, hi, hloop]

/-- The full evaluation of the C7 scenario: 10 attempts, the first re-prompt,
9 attempts, the second re-prompt, then failure. -/
theorem c7_run_eval :
    checkCollateral envC7 cfgA 21 (st0 flagsC7) =
      ({ st0 flagsC7 with cliCnt := 19, askCnt := 2 }, evsC7,
        Res.err (Err.mk "user terminated")) := by
  have h := c7_first_round 9 (by omega)
  norm_num at h
  have hst : stC7 0 0 = st0 flagsC7 := rfl
  rw [hst] at h
  have hevs : pollRound 9 ++
      Event.cli ["masternode", "outputs"] :: Event.sleep 10 ::
      Event.prompt "Still no collateral transaction. Continue? - Y/N" ::
      (pollRound 8 ++
        [Event.cli ["masternode", "outputs"], Event.sleep 10,
         Event.prompt "Still no collateral transaction. Continue? - Y/N"]) = evsC7 := by
    decide
  rw [hevs] at h
  exact checkCollateral_loop_err envC7 cfgA 21 (st0 flagsC7)
    ({ st0 flagsC7 with cliCnt := 19, askCnt := 2 }) evsC7 (Err.mk "user terminated")
    (by decide) (by decide) h

/-- C7 counterexample: with the collateral txid supplied and the funding
transaction never confirming, the two rounds delimited by the two re-prompts
contain 19 outputs queries in total — 10 in the first round but only 9 in the
second — refuting "exactly 10 times in every round". -/
theorem c7_counterexample_second_round_nine :
    checkCollateral envC7 cfgA 21 (st0 flagsC7) =
      ({ st0 flagsC7 with cliCnt := 19, askCnt := 2 }, evsC7,
        Res.err (Err.mk "user terminated"))
    ∧ evsC7.count (Event.cli ["masternode", "outputs"]) = 19
    ∧ evsC7.count (Event.prompt "Still no collateral transaction. Continue? - Y/N") = 2 := by
  exact ⟨c7_run_eval, by decide, by decide⟩

/-- C7 amended: the first polling round makes 10 outputs-query attempts (each
followed by the 10-second sleep) before re-prompting, but every subsequent
round makes only 9 — the `i = 1` reset in the loop body is immediately
incremented by the `for` post-statement, so later rounds start at `i = 2`;
the run terminates when the user declines the re-prompt. -/
theorem c7_amended_round_structure :
    checkCollateral envC7 cfgA 21 (st0 flagsC7) =
      ({ st0 flagsC7 with cliCnt := 19, askCnt := 2 },
        pollRound 10 ++
          Event.prompt "Still no collateral transaction. Continue? - Y/N" ::
          (pollRound 9 ++ [Event.prompt "Still no collateral transaction. Continue? - Y/N"]),
        Res.err (Err.mk "user terminated"))
    ∧ (pollRound 10).count (Event.cli ["masternode", "outputs"]) = 10
    ∧ (pollRound 9).count (Event.cli ["masternode", "outputs"]) = 9 := by
  exact ⟨c7_run_eval, by decide, by decide⟩


/-! ## Event-class lemmas for the embedded functions -/

theorem evsOK_tryIgnoreErr {p : Event → Prop} {x : M Unit}
    (hx : evsOK p x) : evsOK p (tryIgnoreErr x) := by
  intro s e he
  unfold tryIgnoreErr at he
  rcases hxs : x s with ⟨s', evs, r⟩
  rw [hxs] at he
  have hh := hx s e
  rw [hxs] at hh
  exact hh he

theorem evsOK_getMasternodeOutputs {p : Event → Prop} (env : Env)
    (hcli : ∀ a, p (Event.cli a)) : evsOK p (getMasternodeOutputs env) := by
  unfold getMasternodeOutputs
  apply evsOK_bind (evsOK_cliOut env _ hcli)
  intro o
  split
  · exact evsOK_pure _
  · split
    · exact evsOK_throwErr _
    · exact evsOK_pure _

theorem evsOK_collateralLoop {p : Event → Prop} (env : Env)
    (hcli : ∀ a, p (Event.cli a)) (hsleep : ∀ n, p (Event.sleep n))
    (hprompt : ∀ m, p (Event.prompt m)) :
    ∀ (fuel i : Nat), evsOK p (collateralLoop env fuel i) := by
  intro fuel
  induction fuel with
  | zero => intro i; exact evsOK_throwErr _
  | succ n ih =>
    intro i
    unfold collateralLoop
    split
    · apply evsOK_bind (evsOK_getMasternodeOutputs env hcli)
      intro m
      apply evsOK_bind (evsOK_getFlags p)
      intro f
      split
      · exact evsOK_modifyFlags p _
      · apply evsOK_bind (evsOK_sleepOp _ hsleep)
        intro _
        split
        · apply evsOK_bind (evsOK_askUser env _ hprompt)
          intro a
          split
          · exact ih 2
          · exact evsOK_throwErr _
        · exact ih (i + 1)
    · exact evsOK_pure _

theorem evsOK_checkCollateral {p : Event → Prop} (env : Env) (cfg : Config) (fuel : Nat)
    (hcli : ∀ a, p (Event.cli a)) (hsleep : ∀ n, p (Event.sleep n))
    (hprompt : ∀ m, p (Event.prompt m)) :
    evsOK p (checkCollateral env cfg fuel) := by
  unfold checkCollateral
  apply evsOK_bind (evsOK_getFlags p)
  intro f
  apply evsOK_bind
  · split
    · apply evsOK_bind (evsOK_askUser env _ hprompt)
      intro a
      split
      · apply evsOK_bind (evsOK_getMasternodeOutputs env hcli)
        intro m
        split
        · apply evsOK_bind (evsOK_askUser env _ hprompt)
          intro b
          split
          · exact evsOK_throwErr _
          · split
            · exact evsOK_throwErr _
            · split
              · exact evsOK_throwErr _
              · exact evsOK_modifyFlags p _
        · exact evsOK_pure _
      · exact evsOK_pure _
    · exact evsOK_pure _
  intro _
  apply evsOK_bind (evsOK_getFlags p)
  intro f1
  apply evsOK_bind
  · split
    · apply evsOK_bind (evsOK_askUser env _ hprompt)
      intro a
      split
      · apply evsOK_bind (evsOK_cliOut env _ hcli)
        intro addr
        apply evsOK_bind (evsOK_askUser env _ hprompt)
        intro b
        exact evsOK_modifyFlags p _
      · exact evsOK_throwErr _
    · exact evsOK_pure _
  intro _
  apply evsOK_bind (evsOK_collateralLoop env hcli hsleep hprompt fuel 1)
  intro _
  apply evsOK_bind (evsOK_getFlags p)
  intro f2
  split
  · exact evsOK_throwErr _
  · exact evsOK_pure _

theorem evsOK_checkPassphrase {p : Event → Prop} (env : Env)
    (hprompt : ∀ m, p (Event.prompt m)) : evsOK p (checkPassphrase env) := by
  unfold checkPassphrase
  apply evsOK_bind (evsOK_getFlags p)
  intro f
  split
  · apply evsOK_bind (evsOK_askUser env _ hprompt)
    intro a
    apply evsOK_bind (evsOK_modifyFlags p _)
    intro _
    apply evsOK_bind (evsOK_getFlags p)
    intro f2
    split
    · apply evsOK_bind (evsOK_modifyFlags p _)
      intro _
      exact evsOK_throwErr _
    · exact evsOK_pure _
  · exact evsOK_pure _

theorem evsOK_checkMasternodePrivKey {p : Event → Prop} (env : Env) (cfg : Config) (remote : Bool)
    (hcli : ∀ a, p (Event.cli a)) (hssh : ∀ c, p (Event.ssh c)) :
    evsOK p (checkMasternodePrivKey env cfg remote) := by
  unfold checkMasternodePrivKey
  apply evsOK_bind (evsOK_getFlags p)
  intro f
  split
  · apply evsOK_bind
    · split
      · exact evsOK_sshOut env _ hssh
      · exact evsOK_cliOut env _ hcli
    intro out
    exact evsOK_modifyFlags p _
  · exact evsOK_pure _

theorem evsOK_checkPastelID {p : Event → Prop} (env : Env) (cfg : Config) (remote : Bool)
    (hcli : ∀ a, p (Event.cli a)) (hssh : ∀ c, p (Event.ssh c)) :
    evsOK p (checkPastelID env cfg remote) := by
  unfold checkPastelID
  apply evsOK_bind (evsOK_getFlags p)
  intro f
  split
  · split
    · exact evsOK_throwErr _
    · apply evsOK_bind
      · split
        · exact evsOK_sshOut env _ hssh
        · exact evsOK_cliOut env _ hcli
      intro out
      split
      · exact evsOK_throwErr _
      · exact evsOK_modifyFlags p _
  · exact evsOK_pure _

theorem evsOK_checkRunningLoop {p : Event → Prop} (env : Env) (cliPath : String) (want : Bool)
    (hssh : ∀ c, p (Event.ssh c)) (hsleep : ∀ n, p (Event.sleep n)) :
    ∀ b, evsOK p (checkRunningLoop env cliPath want b) := by
  intro b
  induction b with
  | zero => exact evsOK_pure _
  | succ n ih =>
    unfold checkRunningLoop
    apply evsOK_bind (evsOK_sshTry env _ hssh)
    intro r
    split
    · exact evsOK_pure _
    · split
      · exact evsOK_pure _
      · apply evsOK_bind (evsOK_sleepOp _ hsleep)
        intro _
        split
        · exact evsOK_pure _
        · exact ih

theorem evsOK_CheckPastelDRunningRemote {p : Event → Prop} (env : Env) (cliPath : String) (want : Bool)
    (hssh : ∀ c, p (Event.ssh c)) (hsleep : ∀ n, p (Event.sleep n)) :
    evsOK p (CheckPastelDRunningRemote env cliPath want) :=
  evsOK_checkRunningLoop env cliPath want hssh hsleep 12

theorem evsOK_handleCreateUpdateStartColdHot {p : Event → Prop}
    (env : Env) (cfg : Config) (opts : Opts) (fuel : Nat)
    (hcli : ∀ a, p (Event.cli a)) (hsleep : ∀ n, p (Event.sleep n))
    (hprompt : ∀ m, p (Event.prompt m)) (hssh : ∀ c, p (Event.ssh c))
    (hbackup : p Event.backupConf) :
    evsOK p (ColdHotRunner.handleCreateUpdateStartColdHot env cfg opts fuel) := by
  unfold ColdHotRunner.handleCreateUpdateStartColdHot
  apply evsOK_bind (evsOK_checkCollateral env cfg fuel hcli hsleep hprompt)
  intro _
  apply evsOK_bind (evsOK_checkPassphrase env hprompt)
  intro _
  apply evsOK_bind (evsOK_getFlags p)
  intro f
  apply evsOK_bind (evsOK_sshFire env _ hssh)
  intro _
  apply evsOK_bind (evsOK_CheckPastelDRunningRemote env _ true hssh hsleep)
  intro ok
  apply evsOK_bind
  · split
    · exact evsOK_pure _
    · exact evsOK_throwErr _
  intro _
  apply evsOK_bind (evsOK_checkMasternodePrivKey env cfg true hcli hssh)
  intro _
  apply evsOK_bind (evsOK_checkPastelID env cfg true hcli hssh)
  intro _
  apply evsOK_bind (evsOK_sshOut env _ hssh)
  intro _
  apply evsOK_bind (evsOK_sleepOp _ hsleep)
  intro _
  apply evsOK_bind (evsOK_getFlags p)
  intro f1
  split
  · exact evsOK_backupConfOp env hbackup
  · exact evsOK_pure _

/-- The masternode-parameter step of the cold/hot runner never stops the local
daemon: no run of it can emit a `localNodeStop` event. -/
theorem handle_no_localNodeStop (env : Env) (cfg : Config) (opts : Opts) (fuel : Nat) :
    evsOK (fun e => e ≠ Event.localNodeStop)
      (ColdHotRunner.handleCreateUpdateStartColdHot env cfg opts fuel) :=
  evsOK_handleCreateUpdateStartColdHot env cfg opts fuel
    (fun a h => Event.noConfusion h) (fun n h => Event.noConfusion h)
    (fun m h => Event.noConfusion h) (fun c h => Event.noConfusion h)
    (fun h => Event.noConfusion h)

/-- checkCollateral issues no remote SSH command. -/
theorem checkCollateral_no_ssh (env : Env) (cfg : Config) (fuel : Nat) :
    evsOK (fun e => ∀ c, e ≠ Event.ssh c) (checkCollateral env cfg fuel) :=
  evsOK_checkCollateral env cfg fuel
    (fun a c h => Event.noConfusion h) (fun n c h => Event.noConfusion h)
    (fun m c h => Event.noConfusion h)

/-- checkPassphrase issues no remote SSH command. -/
theorem checkPassphrase_no_ssh (env : Env) :
    evsOK (fun e => ∀ c, e ≠ Event.ssh c) (checkPassphrase env) :=
  evsOK_checkPassphrase env (fun m c h => Event.noConfusion h)

/-! ## Skip lemmas: already-populated values are not regenerated -/

/-- checkPassphrase with a populated passphrase: no prompt, no change. -/
theorem checkPassphrase_skip (env : Env) (st : St) (h : st.flags.passPhrase ≠ "") :
    checkPassphrase env st = (st, [], Res.ok ()) := by
  unfold checkPassphrase
  simp [bind_def, M.bind, getFlags, M.pure, pure_def, h]

/-- checkMasternodePrivKey with a populated key: no genkey call, no change. -/
theorem checkMasternodePrivKey_skip (env : Env) (cfg : Config) (remote : Bool) (st : St)
    (h : st.flags.privKey ≠ "") :
    checkMasternodePrivKey env cfg remote st = (st, [], Res.ok ()) := by
  unfold checkMasternodePrivKey
  simp [bind_def, M.bind, getFlags, M.pure, pure_def, h]

/-- checkPastelID with a populated pastelid: no newkey call, no change. -/
theorem checkPastelID_skip (env : Env) (cfg : Config) (remote : Bool) (st : St)
    (h : st.flags.pastelID ≠ "") :
    checkPastelID env cfg remote st = (st, [], Res.ok ()) := by
  unfold checkPastelID
  simp [bind_def, M.bind, getFlags, M.pure, pure_def, h]

/-- checkCollateral with populated txid and index whose first outputs query
already lists the txid (with a nonempty index): exactly one `masternode
outputs` RPC, no prompt, and only the index flag is rewritten from the chain
data. -/
theorem checkCollateral_found (env : Env) (cfg : Config) (fuel : Nat) (st : St)
    (j : String) (m : List (String × String)) (v : String)
    (ht : st.flags.txid ≠ "") (hi : st.flags.ind ≠ "")
    (hcli : env.cli st.cliCnt = Res.ok j) (hj : j ≠ "")
    (hparse : env.parseOutputs j = Res.ok m)
    (hlook : List.lookup st.flags.txid m = some v) (hv : v ≠ "") :
    checkCollateral env cfg (fuel + 1) st =
      ({ st with
          cliCnt := st.cliCnt + 1,
          flags := { st.flags with ind := v } },
        [Event.cli ["masternode", "outputs"]], Res.ok ()) := by
  unfold checkCollateral collateralLoop getMasternodeOutputs
  simp [bind_def, M.bind, getFlags, cliOut, modifyFlags, M.pure, pure_def,
    ht, hi, hcli, hj, hparse, hlook, hv]

/-! ## C4: resolver re-entry -/

/-- C4 amended: with every resolver value already populated (collateral
txid/index, passphrase, private key, pastelid) and the first `masternode
outputs` query listing the txid, `prepareMasterNodeParameters` (without the
optional daemon start) succeeds after exactly one sync check and exactly one
`masternode outputs` RPC — no prompt, no `masternode genkey`, no `pastelid
newkey` — leaving every flag except the chain-refreshed output index
unchanged. -/
theorem c4_amended_reentry (env : Env) (cfg : Config) (fuel : Nat) (st : St)
    (j : String) (m : List (String × String)) (v : String)
    (hflag : (!st.flags.confNew && !st.flags.confAdd) = false)
    (hsync : env.syncRes st.syncCnt = none)
    (ht : st.flags.txid ≠ "") (hi : st.flags.ind ≠ "")
    (hcli : env.cli st.cliCnt = Res.ok j) (hj : j ≠ "")
    (hparse : env.parseOutputs j = Res.ok m)
    (hlook : List.lookup st.flags.txid m = some v) (hv : v ≠ "")
    (hpass : st.flags.passPhrase ≠ "") (hpriv : st.flags.privKey ≠ "")
    (hpid : st.flags.pastelID ≠ "") :
    prepareMasterNodeParameters env cfg false (fuel + 1) st =
      ({ st with
          syncCnt := st.syncCnt + 1, cliCnt := st.cliCnt + 1,
          flags := { st.flags with ind := v } },
        [Event.syncCheck, Event.cli ["masternode", "outputs"]], Res.ok ()) := by
  have hsplit : st.flags.confNew = true ∨ st.flags.confAdd = true := by
    by_cases h1 : st.flags.confNew = true
    · exact Or.inl h1
    · have h1' : st.flags.confNew = false := by simpa using h1
      exact Or.inr (by simpa [h1'] using hflag)
  have h2 := checkCollateral_found env cfg fuel
    { st with syncCnt := st.syncCnt + 1 } j m v ht hi hcli hj hparse hlook hv
  unfold prepareMasterNodeParameters
  rcases hsplit with hc | hc <;>
    simp [bind_def, M.bind, getFlags, hc, checkMasterNodeSyncOp, hsync,
      M.pure, pure_def, h2, checkPassphrase_skip, checkMasternodePrivKey_skip,
      checkPastelID_skip, hpass, hpriv, hpid]

/-! ## C5: external-IP mismatch -/

/-- C5: when the masternode registry entry's external IP differs from the
runtime external IP (the --ip flag if set, otherwise the discovered WAN
address), runStartMasternode fails with the mismatch error and emits no event
at all — in particular it never reaches runPastelNode, so the daemon is not
launched in masternode mode. -/
theorem c5_ext_ip_mismatch (env : Env) (cfg : Config) (st : St)
    (nw : Network) (pk regIP port ip : String)
    (hconf : env.parseConfRes = Res.ok nw)
    (hdata : env.mnConfDataRes = Res.ok (pk, regIP, port))
    (hip : (st.flags.extIPFlag = "" ∧ env.extIPRes = Res.ok ip)
        ∨ (st.flags.extIPFlag = ip ∧ ip ≠ ""))
    (hne : regIP ≠ ip) :
    (runStartMasternode env cfg st).2.1 = []
    ∧ (runStartMasternode env cfg st).2.2 =
        Res.err (Err.mk "External IP address in masternode.conf MUST match WAN address of the node") := by
  unfold runStartMasternode
  rcases hip with ⟨hB, hext⟩ | ⟨hB, hne2⟩
  · constructor <;>
      simp [bind_def, M.bind, oracleRes, hconf, hdata, getFlags, hB, hext,
        modifyFlags, throwErr, hne, M.pure, pure_def]
  · constructor <;>
      simp [bind_def, M.bind, oracleRes, hconf, hdata, getFlags, hB, hne2,
        modifyFlags, throwErr, hne, M.pure, pure_def]

/-! ## C1: failure of the masternode-parameter step -/

/-- C1 amended: whenever the local daemon start succeeds and
handleCreateUpdateStartColdHot then fails (in a create/update run), Run
returns that error at once: its whole trace is the daemon launch followed by
the step's own events, it contains no `localNodeStop` (the local daemon is
left running — no rollback), and no remote command is issued while the
failure is still inside the collateral or passphrase checks (those two
sub-steps emit no SSH command on any input) — but the step as a whole does
issue remote commands, so a later failure inside it happens after remote
commands were already sent. -/
theorem c1_params_failure_no_rollback (env : Env) (cfg : Config) (opts : Opts)
    (fuel : Nat) (st st' : St) (evs : List Event) (e : Err)
    (hflag : (st.flags.isCreate || st.flags.isUpdate) = true)
    (hstart : env.startRes st.startCnt = none)
    (hfail : ColdHotRunner.handleCreateUpdateStartColdHot env cfg opts fuel
        { st with startCnt := st.startCnt + 1 } = (st', evs, Res.err e)) :
    ColdHotRunner.Run env cfg opts fuel st = (st', Event.localNodeStart "" :: evs, Res.err e)
    ∧ Event.localNodeStop ∉ evs
    ∧ (∀ (st₁ : St), ∀ ev ∈ (checkCollateral env cfg fuel st₁).2.1, ∀ c, ev ≠ Event.ssh c)
    ∧ (∀ (st₁ : St), ∀ ev ∈ (checkPassphrase env st₁).2.1, ∀ c, ev ≠ Event.ssh c) := by
  refine ⟨?_, ?_, ?_, ?_⟩
  · have hsplit : st.flags.isCreate = true ∨ st.flags.isUpdate = true := by
      simpa using hflag
    unfold ColdHotRunner.Run
    rcases hsplit with hc | hc <;>
      simp [bind_def, M.bind, runPastelNodeOp, hstart, getFlags, hc, hfail]
  · intro hmem
    have h2 := handle_no_localNodeStop env cfg opts fuel
      { st with startCnt := st.startCnt + 1 } Event.localNodeStop
    rw [hfail] at h2
    exact h2 hmem rfl
  · exact fun st₁ ev hm c => checkCollateral_no_ssh env cfg fuel st₁ ev hm c
  · exact fun st₁ ev hm c => checkPassphrase_no_ssh env st₁ ev hm c

/-! ## C1 concrete run -/

/-- The events of the failing masternode-parameter step in the C1 scenario:
one outputs RPC, then the remote daemon launch, the liveness query, and the
failing remote genkey. -/
def evsC1 : List Event :=
  [Event.cli ["masternode", "outputs"],
   Event.ssh "/d --reindex --externalip=10.0.0.6 --data-dir=/r --daemon ",
   Event.ssh "/c getinfo",
   Event.ssh "/x/pastel-cli masternode genkey"]

/-- C1 counterexample: a create-mode run whose parameter step fails at the
remote `masternode genkey` — Run propagates the error and the local daemon is
not stopped, but by then three commands beyond the initial connection were
already issued over the remote session (the detached daemon launch, a getinfo
liveness query, and the genkey itself), refuting the claim's "no command
beyond the initial connection has been issued". -/
theorem c1_counterexample_remote_commands_issued :
    ColdHotRunner.Run envC1 cfgA optsA 5 (st0 flagsC1) =
      ({ st0 flagsC1 with sshCnt := 3, cliCnt := 1, startCnt := 1 },
        Event.localNodeStart "" :: evsC1, Res.err errX)
    ∧ Event.ssh "/x/pastel-cli masternode genkey" ∈ evsC1
    ∧ evsC1.count (Event.ssh "/c getinfo") = 1
    ∧ Event.localNodeStop ∉ Event.localNodeStart "" :: evsC1 := by
  exact ⟨rfl, by decide, by decide, by decide⟩

/-- C1 witness: the amended no-rollback theorem applied at the concrete C1
scenario. -/
theorem c1_params_failure_no_rollback_witness :
    ColdHotRunner.Run envC1 cfgA optsA 5 (st0 flagsC1) =
      ({ st0 flagsC1 with sshCnt := 3, cliCnt := 1, startCnt := 1 },
        Event.localNodeStart "" :: evsC1, Res.err errX)
    ∧ Event.localNodeStop ∉ evsC1
    ∧ (∀ (st₁ : St), ∀ ev ∈ (checkCollateral envC1 cfgA 5 st₁).2.1, ∀ c, ev ≠ Event.ssh c)
    ∧ (∀ (st₁ : St), ∀ ev ∈ (checkPassphrase envC1 st₁).2.1, ∀ c, ev ≠ Event.ssh c) :=
  c1_params_failure_no_rollback envC1 cfgA optsA 5 (st0 flagsC1)
    { st0 flagsC1 with sshCnt := 3, cliCnt := 1, startCnt := 1 } evsC1 errX
    (by rfl) (by rfl) (by rfl)

/-! ## C4 concrete run -/

/-- C4 counterexample: with collateral txid/index, passphrase, private key and
pastelid all populated, the resolver still issues a `masternode outputs` RPC
(and a sync check) before returning success — refuting "no node RPC calls". -/
theorem c4_counterexample_outputs_rpc_issued :
    prepareMasterNodeParameters envC4 cfgA false 5 (st0 flagsC4) =
      ({ st0 flagsC4 with cliCnt := 1, syncCnt := 1 },
        [Event.syncCheck, Event.cli ["masternode", "outputs"]], Res.ok ())
    ∧ Event.cli ["masternode", "outputs"] ∈
        [Event.syncCheck, Event.cli ["masternode", "outputs"]] := by
  exact ⟨rfl, by decide⟩

/-- C4 witness: the amended re-entry theorem applied at the concrete
fully-populated configuration. -/
theorem c4_amended_reentry_witness :
    prepareMasterNodeParameters envC4 cfgA false 5 (st0 flagsC4) =
      ({ st0 flagsC4 with
          syncCnt := 1, cliCnt := 1,
          flags := { flagsC4 with ind := "0" } },
        [Event.syncCheck, Event.cli ["masternode", "outputs"]], Res.ok ()) :=
  c4_amended_reentry envC4 cfgA 4 (st0 flagsC4) "J" [("abcd1234", "0")] "0"
    (by rfl) (by rfl) (by decide) (by decide) (by rfl) (by decide) (by rfl)
    (by rfl) (by decide) (by decide) (by decide) (by decide)

/-! ## C5 concrete run -/

/-- C5 witness: registry IP 10.0.0.5 against runtime IP 10.0.0.6 — the
masternode start fails with the mismatch error and launches nothing. -/
theorem c5_ext_ip_mismatch_witness :
    (runStartMasternode baseEnv cfgA (st0 flagsC5)).2.1 = []
    ∧ (runStartMasternode baseEnv cfgA (st0 flagsC5)).2.2 =
        Res.err (Err.mk "External IP address in masternode.conf MUST match WAN address of the node") :=
  c5_ext_ip_mismatch baseEnv cfgA (st0 flagsC5) Network.mainnet "pk" "10.0.0.5" "9933"
    "10.0.0.6" rfl rfl (Or.inr ⟨rfl, by decide⟩) (by decide)

/-! ## C8: StartService on an unregistered tool -/

/-- C8: for every tool identity and environment, when the tool is not
registered (IsRegistered yields false), the Linux systemd manager's
StartService returns (false, nil) without invoking any systemd verb — its
event trace is empty, so in particular the supervisor's start command is never
issued; the no-op manager returns (false, nil) unconditionally. -/
theorem c8_start_unregistered_noop (env : servicemanager.SMEnv) (homeDir : String)
    (app : servicemanager.ToolType)
    (h : (servicemanager.IsRegistered env.stat homeDir app).1 = false) :
    servicemanager.StartService env homeDir app = ([], false, none)
    ∧ servicemanager.NoopStartService app = (false, none) := by
  constructor
  · unfold servicemanager.StartService
    simp [h]
  · rfl

/-- A service-manager environment whose stat oracle reports every path as
absent (nothing registered) and whose remaining collaborators all succeed. -/
def smEnvU : servicemanager.SMEnv :=
  { stat := fun _ => servicemanager.StatRes.notExist,
    systemd := fun _ => ("", none),
    fileExistsB := fun _ => true,
    svcConfig := Res.ok "unitfile",
    writeRes := fun _ => none,
    extIPRes := Res.ok "1.1.1.1" }

/-- C8 witness: the unregistered-start theorem applied to the rq-service tool
under the empty file system. -/
theorem c8_start_unregistered_noop_witness :
    (servicemanager.IsRegistered smEnvU.stat "/root" servicemanager.ToolType.rqservice).1 = false
    ∧ (servicemanager.StartService smEnvU "/root" servicemanager.ToolType.rqservice = ([], false, none)
      ∧ servicemanager.NoopStartService servicemanager.ToolType.rqservice = (false, none)) :=
  ⟨by rfl, c8_start_unregistered_noop smEnvU "/root" servicemanager.ToolType.rqservice (by rfl)⟩

/-! ## C10: RegisterService / IsRegistered round trip -/

/-- C10: RegisterService for pasteld under an empty file system writes the
unit file at SystemdSystemDir (/etc/systemd/system/pastel-pasteld.service) and
succeeds, yet IsRegistered — which stats the unit under
homeDir/SystemdUserDir — still reports (false, nil) on the resulting file
system, because the two paths differ: the round trip fails. -/
theorem c10_register_isRegistered_path_mismatch :
    servicemanager.RegisterService smEnvU "/root" servicemanager.ToolType.pasteld
      { pastelExecDir := "/px", workingDir := "/w", flagDevMode := false } =
      (["/etc/systemd/system/pastel-pasteld.service"],
        [servicemanager.SMEvent.systemd "enable" "pastel-pasteld.service"], Res.ok ())
    ∧ servicemanager.IsRegistered
        (servicemanager.statOfList ["/etc/systemd/system/pastel-pasteld.service"])
        "/root" servicemanager.ToolType.pasteld = (false, none)
    ∧ ("/root" ++ "/" ++ servicemanager.SystemdUserDir ++ "/" ++
        servicemanager.ServiceName servicemanager.ToolType.pasteld) ≠
      (servicemanager.SystemdSystemDir ++ "/" ++
        servicemanager.ServiceName servicemanager.ToolType.pasteld) := by
  refine ⟨?_, ?_, ?_⟩ <;> decide

/-! ## C9: RPC credential preservation -/

/-- C9: in install mode with all three RPC credentials already present and the
regenerate flag unset, setupBasePasteWorkingEnvironment leaves the
configuration unchanged (no credential is regenerated, on every oracle
outcome), and whenever the working directory and pastel.conf creation succeed
it writes pastel.conf with exactly those same credentials. -/
theorem c9_rpc_credentials_preserved (env : install.IEnv) (cfg : install.IConfig)
    (hmode : cfg.opMode = "install")
    (hport : ¬cfg.rpcPort = 0) (huser : ¬cfg.rpcUser = "") (hpwd : ¬cfg.rpcPwd = "")
    (hregen : cfg.regenRPC = false) :
    (install.setupBasePasteWorkingEnvironment env cfg).1 = cfg
    ∧ (env.createFolderRes 0 = none → env.createFileRes = none →
        install.IEvent.writeFile (cfg.workingDir ++ "/" ++ "pastel.conf")
          (install.pastelConfContent cfg) ∈
          (install.setupBasePasteWorkingEnvironment env cfg).2.1) := by
  unfold install.setupBasePasteWorkingEnvironment install.updatePastelConfigFile
  rw [if_neg (by simp [hmode])]
  constructor
  · split
    · rfl
    · simp [hport, huser, hpwd, hregen]
      repeat' split
      all_goals rfl
  · intro hf0 hf1
    rw [hf0]
    simp [hport, huser, hpwd, hregen, hf1]
    repeat' split
    all_goals simp

/-- A concrete install configuration with populated RPC credentials. -/
def cfgI9 : install.IConfig :=
  { opMode := "install", workingDir := "/w", rpcPort := 9932, rpcUser := "u1",
    rpcPwd := "p1", regenRPC := false, network := Network.mainnet, peers := "",
    force := false }

/-- A concrete install environment where every step succeeds. -/
def envI9 : install.IEnv :=
  { createFolderRes := fun _ => none, createFileRes := none, snPortRPC := 9933,
    randUser := "r8", randPwd := "r15", writeRes := none, zkRes := none,
    zkIsExist := false }

/-- C9 witness: the preservation theorem applied at the concrete populated
configuration. -/
theorem c9_rpc_credentials_preserved_witness :
    (install.setupBasePasteWorkingEnvironment envI9 cfgI9).1 = cfgI9
    ∧ (envI9.createFolderRes 0 = none → envI9.createFileRes = none →
        install.IEvent.writeFile (cfgI9.workingDir ++ "/" ++ "pastel.conf")
          (install.pastelConfContent cfgI9) ∈
          (install.setupBasePasteWorkingEnvironment envI9 cfgI9).2.1) :=
  c9_rpc_credentials_preserved envI9 cfgI9 (by rfl) (by decide) (by decide)
    (by decide) (by rfl)

end Pastelup
